import Mathlib

/-!
Verification of the collision-resolution and cue-sequencing core of the
`crust-2024` platformer prototypes.

The development shallowly embeds the two prototype implementations of the
collision solver (`src/baby/level.rs` and `src/jd/main.rs`, namespaces
`Baby` and `Jd` below) and the cue sequencer (`src/baby/intro.rs`,
namespace `Baby`).

Modelling conventions:
* `f32` values are modelled as exact rationals (`ℚ`).  The source never
  relies on float rounding for the properties below; float-only values
  (NaN, infinities) are outside the model and noted where relevant.
* `Vec2` is `ℚ × ℚ` with componentwise arithmetic.
* The only square root in the source is the perpendicular point-to-line
  distance `dist` in `collide_push` (and the constant `FRAC_1_SQRT_2`).
  Algebraically `dist = |u ± v| / √2` for corner offset `(u, v)`, so the
  model computes the exact square `dist2 = (u ± v)^2 / 2`, compares
  nonnegative magnitudes via their squares (`a < dist ↔ a^2 < dist2` for
  `a ≥ 0`), and computes the diagonal push `FRAC_1_SQRT_2 • dist`
  exactly as `(u ± v) / 2`.  Each use is commented at the site.
* Rust's `x / 0.0` on `f32` is `±∞`; Lean's `ℚ` yields `0`.  The single
  place this matters (`get_curve` before the first keyframe) is noted.
-/

/-- 2D vector over exact rationals (source: bevy `Vec2`, `f32` fields).
Componentwise `+`/`-` come from the product instances. -/
abbrev Vec2 : Type := ℚ × ℚ

/-- Axis-aligned bounding box, min/max corners (source: bevy `Aabb2d`). -/
structure Aabb where
  lo : Vec2
  hi : Vec2
deriving DecidableEq, Repr

namespace Aabb

/-- `Aabb2d::new(center, half_size)`: box with the given center and half extent. -/
def fromCenter (center half : Vec2) : Aabb :=
  ⟨(center.1 - half.1, center.2 - half.2), (center.1 + half.1, center.2 + half.2)⟩

/-- `Aabb2d::center()`. -/
def center (b : Aabb) : Vec2 := ((b.lo.1 + b.hi.1) / 2, (b.lo.2 + b.hi.2) / 2)

/-- `Aabb2d::intersects` (bevy): inclusive interval overlap on both axes. -/
def intersects (a b : Aabb) : Bool :=
  a.lo.1 ≤ b.hi.1 && a.hi.1 ≥ b.lo.1 && a.lo.2 ≤ b.hi.2 && a.hi.2 ≥ b.lo.2

/-- Translate a box: `aabb.min += push; aabb.max += push`. -/
def translate (b : Aabb) (push : Vec2) : Aabb :=
  ⟨(b.lo.1 + push.1, b.lo.2 + push.2), (b.hi.1 + push.1, b.hi.2 + push.2)⟩

end Aabb

/-- Tile collision shape tag (source: `enum Collide`, identical in both files). -/
inductive Collide where
  | square
  | stepL
  | stepR
  | slopeL
  | slopeR
deriving DecidableEq, Repr

/-- `f32::signum` for exact rationals: `1` for nonnegative input (Rust returns
`1.0` for `+0.0`), `-1` for negative.  `-0.0` does not exist in `ℚ`. -/
def rsign (q : ℚ) : ℚ := if q < 0 then -1 else 1

namespace Baby

/-- `collide_push` from `src/baby/level.rs` (lines 473-553).

For the `StepL/SlopeL` case the source computes, for corner `p = aabb.min`
with offset `(u, v) = p - a` from the collider center `a`:
`sign = (v > -u)` and `dist = |(p-a) - ((p-a)·n)n|` with `n = (1/√2, -1/√2)`,
i.e. the distance from `p` to the slope-(-1) diagonal through `a`.
Algebraically the residual is `((u+v)/2, (u+v)/2)`, so `dist = |u+v|/√2` and
`dist^2 = (u+v)^2/2 =: dist2`.  When `sign` is false, `u + v ≤ 0`, so the
diagonal push `Vec2(1/√2, 1/√2) * dist` is exactly `(-(u+v)/2, -(u+v)/2)`.
Comparisons `x < dist` for `x ≥ 0` are performed as `x^2 < dist2`.
The `StepR/SlopeR` case mirrors this with corner `(aabb.max.x, aabb.min.y)`,
`n = (-1/√2, -1/√2)` (slope +1 diagonal), `sign = (v > u)`, residual
`((u-v)/2, (v-u)/2)`, `dist = |u-v|/√2`, `dist2 = (u-v)^2/2`, and diagonal
push `Vec2(-1/√2, 1/√2) * dist = (-(u-v)/2, (u-v)/2)` (as `v ≤ u` there). -/
def collide_push (aabb : Aabb) (col : Collide) (colAabb : Aabb) :
    Vec2 × Bool × Bool :=
  let lt := colAabb.lo.1 - aabb.hi.1
  let rt := colAabb.hi.1 - aabb.lo.1
  let up := colAabb.hi.2 - aabb.lo.2
  let dn := colAabb.lo.2 - aabb.hi.2
  let horz := if |lt| < |rt| then lt else rt
  let vert := if |dn| < |up| then dn else up
  match col with
  | Collide.square =>
      if |horz| > |vert| then ((0, vert), false, true)
      else ((horz, 0), true, false)
  | Collide.stepL | Collide.slopeL =>
      -- collide like a left triangle, corner p = aabb.min
      let a := colAabb.center
      let u := aabb.lo.1 - a.1
      let v := aabb.lo.2 - a.2
      if v > -u then ((0, 0), false, false)
      else
        let dist2 := (u + v) ^ 2 / 2
        let dampv : Bool := col = Collide.stepL ∨ vert ≤ 0
        let vertPush : Vec2 × Bool × Bool := ((0, vert), false, dampv)
        let horzPush : Vec2 × Bool × Bool := ((horz, 0), true, false)
        let diagPush : Vec2 × Bool × Bool :=
          ((-(u + v) / 2, -(u + v) / 2), false, col = Collide.stepL)
        if dampv ∧ |vert| < |horz| ∧ vert ^ 2 < dist2 then vertPush
        else if horz ^ 2 < dist2 then horzPush
        else diagPush
  | Collide.stepR | Collide.slopeR =>
      -- collide like a right triangle, corner p = (aabb.max.x, aabb.min.y)
      let a := colAabb.center
      let u := aabb.hi.1 - a.1
      let v := aabb.lo.2 - a.2
      if v > u then ((0, 0), false, false)
      else
        let dist2 := (u - v) ^ 2 / 2
        let dampv : Bool := col = Collide.stepR ∨ vert ≤ 0
        let vertPush : Vec2 × Bool × Bool := ((0, vert), false, dampv)
        let horzPush : Vec2 × Bool × Bool := ((horz, 0), true, false)
        let diagPush : Vec2 × Bool × Bool :=
          ((-(u - v) / 2, (u - v) / 2), false, col = Collide.stepR)
        if dampv ∧ |vert| < |horz| ∧ vert ^ 2 < dist2 then vertPush
        else if horz ^ 2 < dist2 then horzPush
        else diagPush

end Baby

namespace Jd

/-- `collide_push` from `src/jd/main.rs` (lines 308-370).

Same geometric setup as `Baby.collide_push` (see its doc comment for the
exact elimination of `√2`); the branch policy differs: the Rust `match` on
`(horz.abs() < dist, horz.abs() < vert.abs(), vert.abs() < dist)` with
patterns `(true, true, _) => horz`, `(_, false, true) => vert`, `_ => diag`
is encoded as the corresponding nested conditionals, and `dampv`
(used only by the diagonal arm) is `matches!(col, StepL/R)` alone. -/
def collide_push (aabb : Aabb) (col : Collide) (colAabb : Aabb) :
    Vec2 × Bool × Bool :=
  let lt := colAabb.lo.1 - aabb.hi.1
  let rt := colAabb.hi.1 - aabb.lo.1
  let up := colAabb.hi.2 - aabb.lo.2
  let dn := colAabb.lo.2 - aabb.hi.2
  let horz := if |lt| < |rt| then lt else rt
  let vert := if |dn| < |up| then dn else up
  match col with
  | Collide.square =>
      if |horz| > |vert| then ((0, vert), false, true)
      else ((horz, 0), true, false)
  | Collide.stepL | Collide.slopeL =>
      let a := colAabb.center
      let u := aabb.lo.1 - a.1
      let v := aabb.lo.2 - a.2
      if v > -u then ((0, 0), false, false)
      else
        let dist2 := (u + v) ^ 2 / 2
        let dampv : Bool := col = Collide.stepL
        if horz ^ 2 < dist2 ∧ |horz| < |vert| then ((horz, 0), true, false)
        else if ¬ |horz| < |vert| ∧ vert ^ 2 < dist2 then ((0, vert), false, true)
        else ((-(u + v) / 2, -(u + v) / 2), false, dampv)
  | Collide.stepR | Collide.slopeR =>
      let a := colAabb.center
      let u := aabb.hi.1 - a.1
      let v := aabb.lo.2 - a.2
      if v > u then ((0, 0), false, false)
      else
        let dist2 := (u - v) ^ 2 / 2
        let dampv : Bool := col = Collide.stepR
        if horz ^ 2 < dist2 ∧ |horz| < |vert| then ((horz, 0), true, false)
        else if ¬ |horz| < |vert| ∧ vert ^ 2 < dist2 then ((0, vert), false, true)
        else ((-(u - v) / 2, (u - v) / 2), false, dampv)

end Jd

namespace Baby

/-- Cue sequencer state (source: `struct CueSequencer`, `src/baby/intro.rs`
lines 442-451).  The `Map` collections are modelled as association lists
(`List.lookup` for `Map::get`); the Rust field `end` is renamed `endt`
(`end` is a Lean keyword). -/
structure CueSequencer where
  playing : Bool
  audio : List (String × (List (ℚ × ℚ) × List (ℚ × Bool)))
  despawn : List (String × ℚ)
  flip : List (String × List (ℚ × Bool))
  subtitles : List (ℚ × String)
  time : ℚ
  endt : ℚ
deriving DecidableEq, Repr

/-- Scanning helper for `get_curve`: walks the keyframe list holding the
previous keyframe `a` (the source's index loop with `a = curve[i - 1]`);
on exhaustion returns the source's fallthrough `(a.1, b.1, 1.)` where
`a = b = last`. -/
def get_curve_go {T : Type} (a : ℚ × T) : List (ℚ × T) → ℚ → T × T × ℚ
  | [], _ => (a.2, a.2, 1)
  | b :: rest, time =>
      if time < b.1 then (a.2, b.2, (time - a.1) / (b.1 - a.1))
      else get_curve_go b rest time

/-- `CueSequencer::get_curve` (`src/baby/intro.rs` lines 454-473).
When `time < curve[0].0` the source sets `a = b = curve[0]` and returns
fraction `(time - a.0) / (b.0 - a.0)` — a division by the zero
`curve[0].0 - curve[0].0`.  Rust `f32` evaluates it to `-∞`
(negative numerator); in the exact model ℚ division by zero is `0`.
Either way the fraction is not `1`. -/
def get_curve {T : Type} (curve : List (ℚ × T)) (time : ℚ) : Option (T × T × ℚ) :=
  match curve with
  | [] => none
  | c :: rest =>
      if time < c.1 then some (c.2, c.2, (time - c.1) / (c.1 - c.1))
      else some (get_curve_go c rest time)

/-- `CueSequencer::get_audio` (`src/baby/intro.rs` lines 475-484):
volume is linearly blended `vol_b * s + vol_a * (1 - s)`; the pause flag
snaps to the after-value once the fraction reaches 1, else holds the
before-value; a missing curve defaults to `(1., 1., 1.)` for volume and
`(true, true, 1.)` for pause. -/
def get_audio (seq : CueSequencer) (name : String) (time : ℚ) : Option (ℚ × Bool) :=
  match seq.audio.lookup name with
  | none => none
  | some (vol, paused) =>
      let va := (get_curve vol time).getD (1, 1, 1)
      let volv := va.2.1 * va.2.2 + va.1 * (1 - va.2.2)
      let pa := (get_curve paused time).getD (true, true, 1)
      some (volv, if pa.2.2 ≥ 1 then pa.2.1 else pa.1)

/-- `CueSequencer::get_despawn` (`src/baby/intro.rs` lines 486-491). -/
def get_despawn (seq : CueSequencer) (name : String) (time : ℚ) : Bool :=
  match seq.despawn.lookup name with
  | some t0 => time ≥ t0
  | none => false

/-- `CueSequencer::get_flip` (`src/baby/intro.rs` lines 493-504): the last
keyframe whose time is ≤ the query time wins (step-hold, no interpolation). -/
def get_flip (seq : CueSequencer) (name : String) (time : ℚ) : Option Bool :=
  match seq.flip.lookup name with
  | none => none
  | some flips =>
      flips.foldl (fun acc tf => if time ≥ tf.1 then some tf.2 else acc) none

/-- `CueSequencer::get_subtitle` (`src/baby/intro.rs` lines 506-513). -/
def get_subtitle (seq : CueSequencer) (time : ℚ) : String :=
  let s := (get_curve seq.subtitles time).getD ("", "", 1)
  if s.2.2 ≥ 1 then s.2.1 else s.1

/-- Result signalled by one `sequence_cues` system run:
`idle` — the `playing` flag is unset, immediate return;
`toGame` — clock ≥ end-of-sequence, `next_state.set(AppState::Game)` is
signalled and the function returns without sampling anything;
`sampled t ents subtitle` — the clock advanced to `t` and every named
entity was sampled (audio volume/pause, despawn, flip) along with the
global subtitle track, the values being pushed to the presentation layer. -/
inductive SeqSignal where
  | idle
  | toGame
  | sampled (t : ℚ) (ents : List (String × Option (ℚ × Bool) × Bool × Option Bool))
      (subtitle : String)
deriving DecidableEq, Repr

/-- `sequence_cues` (`src/baby/intro.rs` lines 516-567).  The ECS queries
(`names`, audio sinks, sprites, commands) are modelled by the list of
entity names present and by returning the sampled values in the signal;
`time.delta_seconds()` is the `delta` argument. -/
def sequence_cues (names : List String) (seq : CueSequencer) (delta : ℚ) :
    CueSequencer × SeqSignal :=
  if ¬ seq.playing then (seq, SeqSignal.idle)
  else if seq.time ≥ seq.endt then (seq, SeqSignal.toGame)
  else
    let seq' := { seq with time := seq.time + delta }
    let t := seq'.time
    (seq',
      SeqSignal.sampled t
        (names.map fun n => (n, get_audio seq' n t, get_despawn seq' n t, get_flip seq' n t))
        (get_subtitle seq' t))

/-- Cue instruction (source: `enum Q` in `src/baby/intro.rs`). -/
inductive Cue where
  | tran (name : String) (x y z : ℚ)
  | rotc (name : String) (rad : ℚ)
  | pausedc (name : String) (paused : Bool)
  | volc (name : String) (vol : ℚ)
  | despawnc (name : String)
  | flipc (name : String) (flip : Bool)
  | sub (text : String)
  | tick (dt : ℚ)
deriving DecidableEq, Repr

/-- End-of-sequence computation from `setup_anim` (`src/baby/intro.rs` lines
662-677): `end` is the sum of all `Q::Tick` deltas in the cue list. -/
def setup_anim_end (cues : List Cue) : ℚ :=
  cues.foldl (fun e c => match c with | Cue.tick dt => e + dt | _ => e) 0

/-- Accumulator of the position channel of the per-entity compile loop of
`setup_anim` (`src/baby/intro.rs` lines 769-847): current clock `t`,
pending value `pos_next`, and the committed parallel keyframe vectors
`pos_steps` / `pos_frames`. -/
structure PosAcc where
  t : ℚ
  posNext : Option (ℚ × ℚ × ℚ)
  posSteps : List ℚ
  posFrames : List (ℚ × ℚ × ℚ)
deriving DecidableEq, Repr

/-- Position-track extraction of `setup_anim`'s per-entity compile loop
(`src/baby/intro.rs` lines 769-847), restricted to the `pos_*` channel for
one entity `name`: `Q::Tran(name, ..)` stages a pending value (last write
wins), `Q::Tick(dt)` commits any pending value as a keyframe at the current
clock and then advances the clock, and a still-pending value is flushed at
the final clock after the loop (lines 840-843).  The other channels
(`rot_*`, `vol_*`, …) update disjoint accumulator fields and are elided. -/
def setup_anim_pos (name : String) (cues : List Cue) :
    List ℚ × List (ℚ × ℚ × ℚ) :=
  let acc := cues.foldl (fun (acc : PosAcc) c =>
    match c with
    | Cue.tran kname x y z =>
        if kname = name then { acc with posNext := some (x, y, z) } else acc
    | Cue.tick dt =>
        match acc.posNext with
        | some p =>
            { t := acc.t + dt, posNext := none,
              posSteps := acc.posSteps ++ [acc.t], posFrames := acc.posFrames ++ [p] }
        | none => { acc with t := acc.t + dt }
    | _ => acc) (⟨0, none, [], []⟩ : PosAcc)
  match acc.posNext with
  | some p => (acc.posSteps ++ [acc.t], acc.posFrames ++ [p])
  | none => (acc.posSteps, acc.posFrames)

end Baby

/-- The concrete 5-second sequencer of the spec's end-transition test. -/
def seqFive : Baby.CueSequencer := ⟨true, [], [], [], [], 0, 5⟩

/-- One frame of the sequencer system: run `sequence_cues` (no entities) with
Δt = 1 and keep the updated state. -/
def seqStep (s : Baby.CueSequencer) : Baby.CueSequencer :=
  (Baby.sequence_cues [] s 1).1

/-- `Movement` component (`src/baby/level.rs` lines 26-32, same in
`src/jd/main.rs`): control velocity, accumulated force, per-tick output
displacement, climbing flag. -/
structure Movement where
  ctl : Vec2
  force : Vec2
  out : Vec2
  climb : Bool
deriving DecidableEq, Repr

/-- The solver state touched by one `check_collide` run: the control
entity's transform translation (`pos`) and half extent (`half = scale / 2`,
constant), its `Movement`, and the `PhysicsTick` leftover sub-tick budget
(`rem`). -/
structure PhysState where
  pos : Vec2
  half : Vec2
  mov : Movement
  rem : ℚ
deriving DecidableEq, Repr

/-- One static collider of the `Query<(&Transform, &Collide)>`: transform
translation, scale, and shape tag. -/
structure Collider where
  pos : Vec2
  scale : Vec2
  shape : Collide
deriving DecidableEq, Repr

/-- Collision gathering of `check_collide` (identical in both files): every
collider whose box (`Aabb2d::new(translation, scale / 2)`) intersects the
moving box, keyed by squared center distance (`length_squared`), then
sorted by that key — Rust's stable `sort_by` with `total_cmp`, modelled by
the stable `List.mergeSort` (no NaN keys exist in the exact model). -/
def gather_collisions (geom : List Collider) (aabb : Aabb) :
    List (ℚ × Collide × Aabb) :=
  let cands := geom.filterMap (fun g =>
    let colAabb := Aabb.fromCenter g.pos (g.scale.1 / 2, g.scale.2 / 2)
    if aabb.intersects colAabb then
      some ((colAabb.center.1 - aabb.center.1) ^ 2
          + (colAabb.center.2 - aabb.center.2) ^ 2, g.shape, colAabb)
    else none)
  cands.mergeSort (fun c1 c2 => c1.1 ≤ c2.1)

/-- One pass over the gathered collision list — the body of the inner
`for (_, col, col_aabb) in &collisions` loop of `check_collide`, shared
verbatim by both files and parametrized by the `collide_push` variant.
State: ((moving box, force, climbing flag), pushed-this-pass flag).
A candidate no longer intersecting is skipped; a zero push is skipped;
otherwise: on a vertically damping push the climb flag is raised when
upward control meets a downward push and `force.y` is zeroed; on a
horizontally damping push `force.x` is zeroed when the push opposes its
sign (`signum` comparison); the box is translated by the push. -/
def collide_pass (cp : Aabb → Collide → Aabb → Vec2 × Bool × Bool) (ctl : Vec2) :
    List (ℚ × Collide × Aabb) → (Aabb × Vec2 × Bool) × Bool →
      (Aabb × Vec2 × Bool) × Bool
  | [], st => st
  | c :: rest, st =>
      let aabb := st.1.1
      let force := st.1.2.1
      let climb := st.1.2.2
      collide_pass cp ctl rest <|
        if ¬ aabb.intersects c.2.2 then st
        else
          let p := cp aabb c.2.1 c.2.2
          if p.1 = (0, 0) then st
          else
            let climb := if p.2.2 ∧ ctl.2 > 0 ∧ p.1.2 < 0 then true else climb
            let fy := if p.2.2 then 0 else force.2
            let fx := if p.2.1 ∧ rsign p.1.1 ≠ rsign force.1 then 0 else force.1
            ((aabb.translate p.1, (fx, fy), climb), true)

/-- The bounded resolution loop `for i in 0..3` of `check_collide` in
`src/baby/level.rs`: run one pass; if it produced no push, stop (`break`);
otherwise continue with the remaining iterations.  `check_collide` calls
this with fuel 3 ("three tries outta be enough"). -/
def collide_passes (cp : Aabb → Collide → Aabb → Vec2 × Bool × Bool) (ctl : Vec2)
    (colls : List (ℚ × Collide × Aabb)) :
    ℕ → Aabb × Vec2 × Bool → Aabb × Vec2 × Bool
  | 0, st => st
  | n + 1, st =>
      let r := collide_pass cp ctl colls (st, false)
      if r.2 then collide_passes cp ctl colls n r.1 else r.1

namespace Baby

/-- One iteration of the `while dt > 1.` loop of `check_collide` in
`src/baby/level.rs` (lines 579-630): apply the gravity impulse
(`force += (0, -9.8 / 60)`), integrate the box center by `ctl + force`,
gather and sort the overlapping colliders, then run up to three resolution
passes (`for i in 0..3`), stopping as soon as a pass produces no push.
State: (box center, force, climbing flag); the half extent never changes. -/
def physics_tick (geom : List Collider) (half ctl : Vec2)
    (s : Vec2 × Vec2 × Bool) : Vec2 × Vec2 × Bool :=
  let force := (s.2.1.1, s.2.1.2 + (-9.8 / 60 : ℚ))
  let center := (s.1.1 + ctl.1 + force.1, s.1.2 + ctl.2 + force.2)
  let aabb := Aabb.fromCenter center half
  let colls := gather_collisions geom aabb
  let r := collide_passes Baby.collide_push ctl colls 3 (aabb, force, s.2.2)
  (r.1.center, r.2.1, r.2.2)

end Baby

namespace Jd

/-- One iteration of the `while dt > 1.` loop of `check_collide` in
`src/jd/main.rs` (lines 395-442): identical to `Baby.physics_tick` except
that there is a single resolution pass (no `for i in 0..3` loop) and the
`Jd.collide_push` rules are used. -/
def physics_tick (geom : List Collider) (half ctl : Vec2)
    (s : Vec2 × Vec2 × Bool) : Vec2 × Vec2 × Bool :=
  let force := (s.2.1.1, s.2.1.2 + (-9.8 / 60 : ℚ))
  let center := (s.1.1 + ctl.1 + force.1, s.1.2 + ctl.2 + force.2)
  let aabb := Aabb.fromCenter center half
  let colls := gather_collisions geom aabb
  let r1 := collide_pass Jd.collide_push ctl colls ((aabb, force, s.2.2), false)
  (r1.1.1.center, r1.1.2.1, r1.1.2.2)

end Jd

/-- Iteration count of the `while dt > 1.` loop: each iteration decrements
`dt` by exactly `1.`, so the body runs while `dt - n > 1`, i.e. exactly
`⌈dt - 1⌉` times (`0` when `dt ≤ 1`). -/
def tick_count (dt : ℚ) : ℕ := (⌈dt - 1⌉).toNat

namespace Baby

/-- `check_collide` from `src/baby/level.rs` (lines 559-651).
If `ctl + force == 0` the system early-returns with `out = 0`, touching
nothing else (in particular `update_rem` keeps its old value, dropping the
frame's Δt).  Otherwise the budget `dt = rem + Δt * 60` (60 physics ticks a
second) is consumed by `tick_count dt` loop iterations (`physics_tick`,
with the climbing flag reset to `false` beforehand), `out` is the final box
center minus the original translation, and the leftover `dt` is stored
back into `PhysicsTick` (the source's `if dt != update_rem.0` guard only
avoids a redundant write of an equal value).  The debug-introspection
block (`cfg!(debug_assertions)`) records diagnostics only and is elided. -/
def check_collide (geom : List Collider) (delta : ℚ) (s : PhysState) :
    PhysState :=
  if s.mov.ctl + s.mov.force = 0 then { s with mov := { s.mov with out := (0, 0) } }
  else
    let dt := s.rem + delta * 60
    let k := tick_count dt
    let r := (physics_tick geom s.half s.mov.ctl)^[k] (s.pos, s.mov.force, false)
    { s with
      mov := { ctl := s.mov.ctl, force := r.2.1, out := r.1 - s.pos, climb := r.2.2 },
      rem := dt - k }

end Baby

namespace Jd

/-- `check_collide` from `src/jd/main.rs` (lines 376-459): line for line the
accumulator logic of `Baby.check_collide` (see its doc comment), with
`Jd.physics_tick` as the loop body. -/
def check_collide (geom : List Collider) (delta : ℚ) (s : PhysState) :
    PhysState :=
  if s.mov.ctl + s.mov.force = 0 then { s with mov := { s.mov with out := (0, 0) } }
  else
    let dt := s.rem + delta * 60
    let k := tick_count dt
    let r := (physics_tick geom s.half s.mov.ctl)^[k] (s.pos, s.mov.force, false)
    { s with
      mov := { ctl := s.mov.ctl, force := r.2.1, out := r.1 - s.pos, climb := r.2.2 },
      rem := dt - k }

end Jd

/-- The displacement-application step of `update_movement` (both files):
`t.translation.x += v.out.x; t.translation.y += v.out.y`. -/
def apply_out (s : PhysState) : PhysState := { s with pos := s.pos + s.mov.out }

/-- The kill box of `update_movement` (both files): a translation that fell
below `y = -1000` is reset to `Vec3::ZERO` (the origin; the z component is
outside the 2D model). -/
def kill_box (s : PhysState) : PhysState :=
  if s.pos.2 < -1000 then { s with pos := (0, 0) } else s

/-- `update_movement` (`src/baby/level.rs` lines 653-675, identical in
`src/jd/main.rs` lines 461-483) restricted to the control entity's
solver-relevant state: apply the per-tick displacement to the transform
translation, then the kill box.  The sprite-flip and climbing-pose updates
it also performs touch only presentation state. -/
def update_movement (s : PhysState) : PhysState := kill_box (apply_out s)

/-- One frame of the physics schedule for the control entity:
`check_collide` followed by `update_movement`, as the systems run each
update tick.  Parametrized by the prototype's `check_collide`. -/
def Baby.frame (geom : List Collider) (delta : ℚ) (s : PhysState) : PhysState :=
  update_movement (Baby.check_collide geom delta s)

/-- `Jd` counterpart of `Baby.frame`. -/
def Jd.frame (geom : List Collider) (delta : ℚ) (s : PhysState) : PhysState :=
  update_movement (Jd.check_collide geom delta s)

/-- The spec's four candidate separations (§4.4: `leftPush = staticBox.minX −
movingBox.maxX`, …).  These formulas coincide verbatim with the `lt`, `rt`,
`up`, `dn` bindings of both `collide_push` implementations. -/
def leftPush (m s : Aabb) : ℚ := s.lo.1 - m.hi.1

/-- Spec §4.4 `rightPush = staticBox.maxX − movingBox.minX`. -/
def rightPush (m s : Aabb) : ℚ := s.hi.1 - m.lo.1

/-- Spec §4.4 `upPush = staticBox.maxY − movingBox.minY`. -/
def upPush (m s : Aabb) : ℚ := s.hi.2 - m.lo.2

/-- Spec §4.4 `downPush = staticBox.minY − movingBox.maxY`. -/
def downPush (m s : Aabb) : ℚ := s.lo.2 - m.hi.2

/-- The horizontal candidate as both `collide_push` implementations select
it: whichever of `lt`/`rt` has strictly smaller magnitude, ties going to
`rt`. -/
def horzCand (m s : Aabb) : ℚ :=
  if |leftPush m s| < |rightPush m s| then leftPush m s else rightPush m s

/-- The vertical candidate as both `collide_push` implementations select it:
whichever of `dn`/`up` has strictly smaller magnitude, ties going to `up`. -/
def vertCand (m s : Aabb) : ℚ :=
  if |downPush m s| < |upPush m s| then downPush m s else upPush m s

/-- `x` is "whichever of `a`/`b` has smaller magnitude" — the spec's §4.4
candidate-selection wording, which leaves ties unconstrained. -/
def smallerMagnitude (x a b : ℚ) : Prop :=
  (x = a ∨ x = b) ∧ |x| ≤ |a| ∧ |x| ≤ |b|

/-- Modelled from the spec: the Square resolution rule of §4.4/§4.5 in the
spec's own words, as a predicate on the returned
`(pushVector, dampensHorizontal, dampensVertical)` triple — used to state
the refinement claim C1 against the code's `collide_push`. -/
def squareRuleSpec (m s : Aabb) (res : Vec2 × Bool × Bool) : Prop :=
  ∃ horz vert, smallerMagnitude horz (leftPush m s) (rightPush m s) ∧
    smallerMagnitude vert (downPush m s) (upPush m s) ∧
    ((|horz| > |vert| ∧ res = ((0, vert), false, true)) ∨
      (¬ |horz| > |vert| ∧ res = ((horz, 0), true, false)))
/-- Abstract form of the non-idle path of `check_collide` on the
(tick-state, leftover budget) pair: accumulate `q = Δt·60` into the budget,
run the tick function once per whole budget unit, store the remainder.
Used to relate the four-quarter-calls and the one-full-call schedules. -/
def solver_call {α : Type} (T : α → α) (q : ℚ) (sr : α × ℚ) : α × ℚ :=
  let dt := sr.2 + q
  let k := tick_count dt
  (T^[k] sr.1, dt - k)

/-- Leftover budget after one quarter-budget solver call
(Δt = 1/240 real seconds contributes 1/4 tick). -/
def quarter_rem (r : ℚ) : ℚ := r + 1/4 - tick_count (r + 1/4)

/-- Ticks consumed by one quarter-budget solver call from leftover `r`. -/
def quarter_k (r : ℚ) : ℕ := tick_count (r + 1/4)

/-- Total ticks consumed by `n` successive quarter-budget solver calls. -/
def quarter_ks (r : ℚ) : ℕ → ℕ
  | 0 => 0
  | n + 1 => quarter_ks r n + quarter_k (quarter_rem^[n] r)

/-- The (center, force) action of one `Baby.physics_tick`, with the
climbing flag seeded `false` — the state `check_collide` actually iterates
across calls (the flag is write-only inside a tick and reset at every
call). -/
def Baby.tick_pf (geom : List Collider) (half ctl : Vec2) (pf : Vec2 × Vec2) :
    Vec2 × Vec2 :=
  ((Baby.physics_tick geom half ctl (pf.1, pf.2, false)).1,
    (Baby.physics_tick geom half ctl (pf.1, pf.2, false)).2.1)

/-- `Jd` counterpart of `Baby.tick_pf`. -/
def Jd.tick_pf (geom : List Collider) (half ctl : Vec2) (pf : Vec2 × Vec2) :
    Vec2 × Vec2 :=
  ((Jd.physics_tick geom half ctl (pf.1, pf.2, false)).1,
    (Jd.physics_tick geom half ctl (pf.1, pf.2, false)).2.1)

/-- C3 (amended): for a non-empty curve and a query time strictly before the
first keyframe time, `get_curve` returns the first keyframe's value as both
the before-value and the after-value, but the interpolation fraction is the
division-by-zero expression `(time - t₀) / (t₀ - t₀)` — `0` in the exact
rational model (`-∞` under `f32` semantics) — not `1`. -/
theorem c3_before_first_keyframe {T : Type} (t0 : ℚ) (v0 : T)
    (rest : List (ℚ × T)) (time : ℚ) (h : time < t0) :
    Baby.get_curve ((t0, v0) :: rest) time = some (v0, v0, 0) := by
  simp [Baby.get_curve, h, sub_self, div_zero]

/-- Witness for `c3_before_first_keyframe` at the concrete track `[(1, 42)]`
queried at time `0`. -/
theorem c3_before_first_keyframe_witness :
    Baby.get_curve [((1 : ℚ), (42 : ℚ))] 0 = some (42, 42, 0) :=
  c3_before_first_keyframe 1 42 [] 0 (by norm_num)

/-- Counterexample to C3 as stated: the track `[(1, 42)]` sampled at time `0`
(strictly before the first keyframe) does not return fraction `1`
(it returns the divide-by-zero fraction, `0` in the exact model). -/
theorem c3_counterexample :
    Baby.get_curve [((1 : ℚ), (42 : ℚ))] 0 ≠ some (42, 42, 1) := by
  norm_num [Baby.get_curve]

/-- C4: compiling `[Tran("a",1,2), Tick(1), Tran("a",3,4), Tick(1)]` (the
spec's 2-component translation, `z = 0` in the source's 3-component `Q::Tran`)
yields the position keyframes `(0,(1,2))`, `(1,(3,4))` (parallel
`pos_steps` / `pos_frames` vectors as in the source) and total duration 2:
each `Tran` is staged as pending and committed at the current clock by the
next `Tick`, which then advances the clock by its delta. -/
theorem c4_cue_compiler_round_trip :
    Baby.setup_anim_pos "a"
        [Baby.Cue.tran "a" 1 2 0, Baby.Cue.tick 1,
         Baby.Cue.tran "a" 3 4 0, Baby.Cue.tick 1]
      = ([0, 1], [(1, 2, 0), (3, 4, 0)]) ∧
    Baby.setup_anim_end
        [Baby.Cue.tran "a" 1 2 0, Baby.Cue.tick 1,
         Baby.Cue.tran "a" 3 4 0, Baby.Cue.tick 1]
      = 2 := by
  constructor
  · norm_num [Baby.setup_anim_pos]
  · norm_num [Baby.setup_anim_end]

/-- C10: for an entity whose audio entry has volume keyframes but an empty
pause track, `get_audio` reports `paused = true` at every query time: the
absent pause curve defaults to `(true, true, 1)` and the snap rule
(`fraction ≥ 1` takes the after-value) yields `true`. -/
theorem c10_no_pause_keyframes_reports_paused
    (seq : Baby.CueSequencer) (name : String) (time : ℚ) (vols : List (ℚ × ℚ))
    (h : seq.audio.lookup name = some (vols, [])) (hv : vols ≠ []) :
    (Baby.get_audio seq name time).map Prod.snd = some true := by
  simp [Baby.get_audio, h, Baby.get_curve]

/-- Witness for `c10_no_pause_keyframes_reports_paused`: a sequencer whose
entry for "music" has one volume keyframe and no pause keyframes reports
paused at time 3. -/
theorem c10_no_pause_keyframes_reports_paused_witness :
    (Baby.get_audio ⟨true, [("music", ([(0, 1)], []))], [], [], [], 0, 5⟩
        "music" 3).map Prod.snd = some true :=
  c10_no_pause_keyframes_reports_paused
    ⟨true, [("music", ([(0, 1)], []))], [], [], [], 0, 5⟩ "music" 3 [(0, 1)]
    (by simp [List.lookup]) (by simp)

/-- C6: (i) whenever the sequencer is playing and its clock has reached the
end-of-sequence time, `sequence_cues` signals the Playing → Finished scene
transition (`next_state.set(AppState::Game)`) and returns with the state
unchanged and nothing sampled; (ii) for the concrete sequence of total
duration 5 ticked with Δt = 1: each of the first five ticks samples (at
times 1..5), after the fifth tick the clock equals 5, and every call from
the sixth on signals the transition, leaves the state fixed, and samples
nothing. -/
theorem c6_sequencer_end_transition :
    (∀ (names : List String) (seq : Baby.CueSequencer) (delta : ℚ),
        seq.playing = true → seq.endt ≤ seq.time →
        Baby.sequence_cues names seq delta = (seq, Baby.SeqSignal.toGame)) ∧
    (∀ i : Fin 5,
        (Baby.sequence_cues [] (seqStep^[i.val] seqFive) 1).2
          = Baby.SeqSignal.sampled ((i.val : ℚ) + 1) [] "") ∧
    seqStep^[5] seqFive = { seqFive with time := 5 } ∧
    (∀ n : ℕ, seqStep^[n] (seqStep^[5] seqFive) = seqStep^[5] seqFive) ∧
    (Baby.sequence_cues [] (seqStep^[5] seqFive) 1).2 = Baby.SeqSignal.toGame := by
  have h5 : seqStep^[5] seqFive = { seqFive with time := 5 } := by
    norm_num [seqStep, seqFive, Baby.sequence_cues,
      Function.iterate_succ_apply', Function.iterate_zero]
  have hfix : seqStep ({ seqFive with time := 5 } : Baby.CueSequencer)
      = { seqFive with time := 5 } := by
    norm_num [seqStep, seqFive, Baby.sequence_cues]
  refine ⟨?_, ?_, h5, ?_, ?_⟩
  · intro names seq delta hp he
    simp [Baby.sequence_cues, hp, he]
  · intro i
    fin_cases i <;>
      norm_num [seqStep, seqFive, Baby.sequence_cues, Baby.get_subtitle,
        Baby.get_curve, Function.iterate_succ_apply', Function.iterate_zero]
  · intro n
    rw [h5]
    induction n with
    | zero => rfl
    | succ m ih => rw [Function.iterate_succ_apply', ih, hfix]
  · rw [h5]
    norm_num [seqFive, Baby.sequence_cues]

/-- Witness for `c6_sequencer_end_transition`: its universally quantified
first conjunct applied to a concrete playing sequencer whose clock (7) is
past its end (5). -/
theorem c6_sequencer_end_transition_witness :
    Baby.sequence_cues ["baby"] ⟨true, [], [], [], [], 7, 5⟩ 1
      = (⟨true, [], [], [], [], 7, 5⟩, Baby.SeqSignal.toGame) :=
  c6_sequencer_end_transition.1 ["baby"] ⟨true, [], [], [], [], 7, 5⟩ 1 rfl
    (by norm_num)

/-- Both `collide_push` implementations agree on the Square arm, and it
reduces to the candidate selection followed by the strict magnitude
comparison (definitional unfolding). -/
theorem baby_collide_push_square (m s : Aabb) :
    Baby.collide_push m Collide.square s =
      if |horzCand m s| > |vertCand m s| then ((0, vertCand m s), false, true)
      else ((horzCand m s, 0), true, false) := rfl

/-- The Square arm of `Jd.collide_push`, identical to the `Baby` one. -/
theorem jd_collide_push_square (m s : Aabb) :
    Jd.collide_push m Collide.square s =
      if |horzCand m s| > |vertCand m s| then ((0, vertCand m s), false, true)
      else ((horzCand m s, 0), true, false) := rfl

/-- The `if |a| < |b| then a else b` selection used by both implementations
satisfies the spec's "whichever of the two has smaller magnitude". -/
theorem smallerMagnitude_select (a b : ℚ) :
    smallerMagnitude (if |a| < |b| then a else b) a b := by
  unfold smallerMagnitude
  split_ifs with h
  · exact ⟨Or.inl rfl, le_refl _, le_of_lt h⟩
  · exact ⟨Or.inr rfl, le_of_not_lt h, le_refl _⟩

/-- C1: for every overlapping pair, both implementations of the Square rule
compute the spec's four candidate separations, select a smaller-magnitude
horizontal and vertical candidate, and return a purely vertical push with
only the vertical damping flag when `|horz| > |vert|`, else a purely
horizontal push with only the horizontal damping flag. -/
theorem c1_square_rule (m s : Aabb) (h : m.intersects s = true) :
    squareRuleSpec m s (Baby.collide_push m Collide.square s) ∧
      squareRuleSpec m s (Jd.collide_push m Collide.square s) := by
  have key : squareRuleSpec m s
      (if |horzCand m s| > |vertCand m s| then ((0, vertCand m s), false, true)
        else ((horzCand m s, 0), true, false)) := by
    refine ⟨horzCand m s, vertCand m s,
      smallerMagnitude_select _ _, smallerMagnitude_select _ _, ?_⟩
    by_cases hgt : |horzCand m s| > |vertCand m s|
    · exact Or.inl ⟨hgt, if_pos hgt⟩
    · exact Or.inr ⟨hgt, if_neg hgt⟩
  exact ⟨by rw [baby_collide_push_square]; exact key,
    by rw [jd_collide_push_square]; exact key⟩

/-- Witness for `c1_square_rule`: the spec's own Square test geometry —
actor box centered `(0, 0)` with half extent `(25, 25)` falling onto a
static box centered `(0, -40)` with half extent `(25, 25)`. -/
theorem c1_square_rule_witness :
    (⟨(-25, -25), (25, 25)⟩ : Aabb).intersects ⟨(-25, -65), (25, -15)⟩ = true ∧
      (squareRuleSpec ⟨(-25, -25), (25, 25)⟩ ⟨(-25, -65), (25, -15)⟩
          (Baby.collide_push ⟨(-25, -25), (25, 25)⟩ Collide.square ⟨(-25, -65), (25, -15)⟩) ∧
        squareRuleSpec ⟨(-25, -25), (25, 25)⟩ ⟨(-25, -65), (25, -15)⟩
          (Jd.collide_push ⟨(-25, -25), (25, 25)⟩ Collide.square ⟨(-25, -65), (25, -15)⟩)) :=
  ⟨by norm_num [Aabb.intersects],
    c1_square_rule ⟨(-25, -25), (25, 25)⟩ ⟨(-25, -65), (25, -15)⟩
      (by norm_num [Aabb.intersects])⟩

/-- C9 (amended): when the horizontal and vertical candidates have exactly
equal magnitude, `|horz| > |vert|` is false, so both implementations fall
through to the HORIZONTAL branch: a purely horizontal push with only the
horizontal damping flag — horizontal, not vertical, wins ties. -/
theorem c9_square_tie_breaks_horizontal (m s : Aabb)
    (h : |horzCand m s| = |vertCand m s|) :
    Baby.collide_push m Collide.square s = ((horzCand m s, 0), true, false) ∧
      Jd.collide_push m Collide.square s = ((horzCand m s, 0), true, false) := by
  have hn : ¬ |horzCand m s| > |vertCand m s| := by rw [h]; exact lt_irrefl _
  exact ⟨by rw [baby_collide_push_square, if_neg hn],
    by rw [jd_collide_push_square, if_neg hn]⟩

/-- Witness for `c9_square_tie_breaks_horizontal`: an exact-tie overlap
(moving box `(-25,-25)-(25,25)`, static box `(15,15)-(65,65)`, both
candidates `-10`). -/
theorem c9_square_tie_breaks_horizontal_witness :
    |horzCand ⟨(-25, -25), (25, 25)⟩ ⟨(15, 15), (65, 65)⟩|
        = |vertCand ⟨(-25, -25), (25, 25)⟩ ⟨(15, 15), (65, 65)⟩| ∧
      (Baby.collide_push ⟨(-25, -25), (25, 25)⟩ Collide.square ⟨(15, 15), (65, 65)⟩
          = ((horzCand ⟨(-25, -25), (25, 25)⟩ ⟨(15, 15), (65, 65)⟩, 0), true, false) ∧
        Jd.collide_push ⟨(-25, -25), (25, 25)⟩ Collide.square ⟨(15, 15), (65, 65)⟩
          = ((horzCand ⟨(-25, -25), (25, 25)⟩ ⟨(15, 15), (65, 65)⟩, 0), true, false)) :=
  ⟨by norm_num [horzCand, vertCand, leftPush, rightPush, upPush, downPush],
    c9_square_tie_breaks_horizontal ⟨(-25, -25), (25, 25)⟩ ⟨(15, 15), (65, 65)⟩
      (by norm_num [horzCand, vertCand, leftPush, rightPush, upPush, downPush])⟩

/-- Counterexample to C9 as stated: with both candidates `-10` (equal
magnitudes, boxes overlapping corner-to-corner), both implementations
return the horizontal push `((-10, 0), damph, ¬dampv)`, not a vertical
push: the fall-through branch of `if |horz| > |vert|` is the horizontal
one. -/
theorem c9_counterexample :
    |horzCand ⟨(-25, -25), (25, 25)⟩ ⟨(15, 15), (65, 65)⟩|
        = |vertCand ⟨(-25, -25), (25, 25)⟩ ⟨(15, 15), (65, 65)⟩| ∧
      Baby.collide_push ⟨(-25, -25), (25, 25)⟩ Collide.square ⟨(15, 15), (65, 65)⟩
        = ((-10, 0), true, false) ∧
      Jd.collide_push ⟨(-25, -25), (25, 25)⟩ Collide.square ⟨(15, 15), (65, 65)⟩
        = ((-10, 0), true, false) ∧
      Baby.collide_push ⟨(-25, -25), (25, 25)⟩ Collide.square ⟨(15, 15), (65, 65)⟩
        ≠ ((0, vertCand ⟨(-25, -25), (25, 25)⟩ ⟨(15, 15), (65, 65)⟩), false, true) := by
  refine ⟨?_, ?_, ?_, ?_⟩ <;>
    norm_num [Baby.collide_push, Jd.collide_push, horzCand, vertCand,
      leftPush, rightPush, upPush, downPush]

set_option maxHeartbeats 3200000 in
/-- C2 (amended): what actually distinguishes steps from slopes.
In `jd/main.rs` the branch selection is shape-independent: step and slope
return the same push vector and the same horizontal flag, a vertical push
always sets the vertical damping flag (for slopes too, in either
direction), and only the diagonal push's vertical damping (set for steps,
never for slopes) tells them apart.  In `baby/level.rs` a step dampens
vertical force on every nonzero vertical or diagonal push (equivalently:
every nonzero push not flagged horizontal), while a slope dampens only on
a pure vertical push whose component is non-positive (downward) — and
since the slope's vertical branch is guarded by that very condition, the
selected push itself can differ from the step's for identical geometry
(see `c2_counterexample`, which also shows a flush top landing on
`baby`'s SlopeR is NOT vertically dampened, while `jd`'s SlopeR dampens
an upward vertical push). -/
theorem c2_step_slope_damping (m s : Aabb) :
    ((Jd.collide_push m Collide.stepL s).1 = (Jd.collide_push m Collide.slopeL s).1 ∧
     (Jd.collide_push m Collide.stepL s).2.1 = (Jd.collide_push m Collide.slopeL s).2.1 ∧
     (Jd.collide_push m Collide.stepR s).1 = (Jd.collide_push m Collide.slopeR s).1 ∧
     (Jd.collide_push m Collide.stepR s).2.1 = (Jd.collide_push m Collide.slopeR s).2.1) ∧
    (((Baby.collide_push m Collide.stepL s).2.1 = false →
        (Baby.collide_push m Collide.stepL s).1 ≠ (0, 0) →
        (Baby.collide_push m Collide.stepL s).2.2 = true) ∧
     ((Baby.collide_push m Collide.stepR s).2.1 = false →
        (Baby.collide_push m Collide.stepR s).1 ≠ (0, 0) →
        (Baby.collide_push m Collide.stepR s).2.2 = true) ∧
     ((Jd.collide_push m Collide.stepL s).2.1 = false →
        (Jd.collide_push m Collide.stepL s).1 ≠ (0, 0) →
        (Jd.collide_push m Collide.stepL s).2.2 = true) ∧
     ((Jd.collide_push m Collide.stepR s).2.1 = false →
        (Jd.collide_push m Collide.stepR s).1 ≠ (0, 0) →
        (Jd.collide_push m Collide.stepR s).2.2 = true)) ∧
    (((Baby.collide_push m Collide.slopeL s).2.2 = true →
        (Baby.collide_push m Collide.slopeL s).1.1 = 0 ∧
        (Baby.collide_push m Collide.slopeL s).1.2 ≤ 0) ∧
     ((Baby.collide_push m Collide.slopeR s).2.2 = true →
        (Baby.collide_push m Collide.slopeR s).1.1 = 0 ∧
        (Baby.collide_push m Collide.slopeR s).1.2 ≤ 0)) ∧
    (((Jd.collide_push m Collide.slopeL s).2.2 = true →
        (Jd.collide_push m Collide.slopeL s).1.1 = 0) ∧
     ((Jd.collide_push m Collide.slopeR s).2.2 = true →
        (Jd.collide_push m Collide.slopeR s).1.1 = 0)) := by
  refine ⟨⟨?_, ?_, ?_, ?_⟩, ⟨?_, ?_, ?_, ?_⟩, ⟨?_, ?_⟩, ⟨?_, ?_⟩⟩
  · simp only [Jd.collide_push]; split_ifs <;> rfl
  · simp only [Jd.collide_push]; split_ifs <;> rfl
  · simp only [Jd.collide_push]; split_ifs <;> rfl
  · simp only [Jd.collide_push]; split_ifs <;> rfl
  · simp only [Baby.collide_push]; split_ifs <;> intro h1 h2 <;> simp_all
  · simp only [Baby.collide_push]; split_ifs <;> intro h1 h2 <;> simp_all
  · simp only [Jd.collide_push]; split_ifs <;> intro h1 h2 <;> simp_all
  · simp only [Jd.collide_push]; split_ifs <;> intro h1 h2 <;> simp_all
  · simp only [Baby.collide_push]; split_ifs <;> intro h1 <;> simp_all
  · simp only [Baby.collide_push]; split_ifs <;> intro h1 <;> simp_all
  · simp only [Jd.collide_push]; split_ifs <;> intro h1 <;> simp_all
  · simp only [Jd.collide_push]; split_ifs <;> intro h1 <;> simp_all

/-- Witness for `c2_step_slope_damping`: at the flush-top-landing geometry
(moving box `(-20,24)-(30,74)` on static tile `(-25,-25)-(25,25)`), the
`baby` StepR push is the vertical `(0, 1)` with `damph = false` and a
nonzero push, so the theorem's step clause forces `dampv = true`. -/
theorem c2_step_slope_damping_witness :
    (Baby.collide_push ⟨(-20, 24), (30, 74)⟩ Collide.stepR ⟨(-25, -25), (25, 25)⟩).2.2
      = true :=
  (c2_step_slope_damping ⟨(-20, 24), (30, 74)⟩ ⟨(-25, -25), (25, 25)⟩).2.1.2.1
    (by norm_num [Baby.collide_push, Aabb.center])
    (by norm_num [Baby.collide_push, Aabb.center])

/-- Counterexample to C2 as stated, at one concrete flush-top landing
(moving box `(-20,24)-(30,74)`, static tile `(-25,-25)-(25,25)`; the
vertical candidate is `+1`, an upward push out of the tile's top face):
`baby`'s SlopeR returns the diagonal push `(-3, 3)` with NO vertical
damping while StepR returns the vertical `(0, 1)` WITH damping — the two
shapes differ in the push itself, not only in damping, and a box landing
flush on top of SlopeR is not vertically dampened; `jd`'s SlopeR returns
the vertical `(0, 1)` WITH vertical damping although the push is upward,
not downward. -/
theorem c2_counterexample :
    Baby.collide_push ⟨(-20, 24), (30, 74)⟩ Collide.slopeR ⟨(-25, -25), (25, 25)⟩
        = ((-3, 3), false, false) ∧
      Baby.collide_push ⟨(-20, 24), (30, 74)⟩ Collide.stepR ⟨(-25, -25), (25, 25)⟩
        = ((0, 1), false, true) ∧
      Jd.collide_push ⟨(-20, 24), (30, 74)⟩ Collide.slopeR ⟨(-25, -25), (25, 25)⟩
        = ((0, 1), false, true) ∧
      vertCand ⟨(-20, 24), (30, 74)⟩ ⟨(-25, -25), (25, 25)⟩ = 1 := by
  refine ⟨?_, ?_, ?_, ?_⟩ <;>
    · norm_num [Baby.collide_push, Jd.collide_push, Aabb.center, vertCand,
        downPush, upPush]
      all_goals simp

/-- After a `check_collide` budget consumption the leftover is at most one
tick: `dt - ⌈dt - 1⌉⁺ ≤ 1`. -/
theorem tick_count_le (dt : ℚ) : dt - tick_count dt ≤ 1 := by
  unfold tick_count
  rcases le_or_lt ⌈dt - 1⌉ 0 with h | h
  · rw [Int.toNat_of_nonpos h]
    have h2 : dt - 1 ≤ (0 : ℚ) := by exact_mod_cast Int.ceil_le.mp h
    push_cast
    linarith
  · have h2 : (dt - 1 : ℚ) ≤ (⌈dt - 1⌉ : ℚ) := Int.le_ceil _
    have hc : ((⌈dt - 1⌉.toNat : ℕ) : ℚ) = ((⌈dt - 1⌉ : ℤ) : ℚ) := by
      exact_mod_cast congrArg (fun z : ℤ => (z : ℚ)) (Int.toNat_of_nonneg h.le)
    rw [hc]
    linarith

/-- If the loop ran at least once, the stored leftover is strictly
positive. -/
theorem tick_count_pos_rem {dt : ℚ} (h : 1 ≤ tick_count dt) :
    0 < dt - tick_count dt := by
  unfold tick_count at *
  have hpos : 0 < ⌈dt - 1⌉ := by
    by_contra hc
    push_neg at hc
    rw [Int.toNat_of_nonpos hc] at h
    exact absurd h (by norm_num)
  have hlt : (⌈dt - 1⌉ : ℚ) < dt := by
    have := Int.ceil_lt_add_one (dt - 1)
    linarith
  have hc : ((⌈dt - 1⌉.toNat : ℕ) : ℚ) = ((⌈dt - 1⌉ : ℤ) : ℚ) := by
    exact_mod_cast congrArg (fun z : ℤ => (z : ℚ)) (Int.toNat_of_nonneg hpos.le)
  rw [hc]
  linarith

/-- A budget of at most one tick runs the loop zero times. -/
theorem tick_count_of_le_one {dt : ℚ} (h : dt ≤ 1) : tick_count dt = 0 := by
  unfold tick_count
  rw [Int.toNat_eq_zero, Int.ceil_le]
  push_cast
  linarith

/-- C8 (amended): the solver early-returns with zero output precisely when
the SUM `ctl + force` is the zero vector — not when both vectors are zero.
When the sum is zero the whole state except `out` is untouched (the frame's
budget is dropped, `rem` keeps its old value); when the sum is nonzero the
call proceeds to accumulate the tick budget, storing back
`rem + Δt·60 - tick_count (rem + Δt·60)`. -/
theorem c8_early_return_on_cancelling_sum (geom : List Collider) (delta : ℚ)
    (s : PhysState) :
    (s.mov.ctl + s.mov.force = 0 →
      Baby.check_collide geom delta s
          = { s with mov := { s.mov with out := (0, 0) } } ∧
        Jd.check_collide geom delta s
          = { s with mov := { s.mov with out := (0, 0) } }) ∧
    (s.mov.ctl + s.mov.force ≠ 0 →
      (Baby.check_collide geom delta s).rem
          = s.rem + delta * 60 - tick_count (s.rem + delta * 60) ∧
        (Jd.check_collide geom delta s).rem
          = s.rem + delta * 60 - tick_count (s.rem + delta * 60)) := by
  constructor
  · intro h
    constructor <;> simp [Baby.check_collide, Jd.check_collide, h]
  · intro h
    constructor <;> simp [Baby.check_collide, Jd.check_collide, h]

/-- Witness for `c8_early_return_on_cancelling_sum`: both conjuncts applied
to the cancelling state `ctl = (1,0)`, `force = (-1,0)`. -/
theorem c8_early_return_on_cancelling_sum_witness :
    Baby.check_collide [] (1/60) ⟨(0, 0), (25, 25), ⟨(1, 0), (-1, 0), (7, 7), false⟩, 0⟩
        = { pos := (0, 0), half := (25, 25),
            mov := { ctl := (1, 0), force := (-1, 0), out := (0, 0), climb := false },
            rem := 0 } ∧
      Jd.check_collide [] (1/60) ⟨(0, 0), (25, 25), ⟨(1, 0), (-1, 0), (7, 7), false⟩, 0⟩
        = { pos := (0, 0), half := (25, 25),
            mov := { ctl := (1, 0), force := (-1, 0), out := (0, 0), climb := false },
            rem := 0 } :=
  (c8_early_return_on_cancelling_sum [] (1/60)
      ⟨(0, 0), (25, 25), ⟨(1, 0), (-1, 0), (7, 7), false⟩, 0⟩).1
    (by norm_num [Prod.ext_iff])

/-- Counterexample to C8 as stated: with `ctl = (1, 0)` and
`force = (-1, 0)` — both nonzero — the solver still early-returns with
zero output and an untouched budget (`rem` stays `0` although Δt = 1/60
would otherwise store a full tick), because the code tests
`ctl + force == Vec2::ZERO`, not "both vectors are zero". -/
theorem c8_counterexample :
    ((1, 0) : Vec2) ≠ 0 ∧ ((-1, 0) : Vec2) ≠ 0 ∧
      Baby.check_collide [] (1/60) ⟨(0, 0), (25, 25), ⟨(1, 0), (-1, 0), (7, 7), false⟩, 0⟩
        = { pos := (0, 0), half := (25, 25),
            mov := { ctl := (1, 0), force := (-1, 0), out := (0, 0), climb := false },
            rem := 0 } ∧
      Jd.check_collide [] (1/60) ⟨(0, 0), (25, 25), ⟨(1, 0), (-1, 0), (7, 7), false⟩, 0⟩
        = { pos := (0, 0), half := (25, 25),
            mov := { ctl := (1, 0), force := (-1, 0), out := (0, 0), climb := false },
            rem := 0 } := by
  refine ⟨by norm_num [Prod.ext_iff], by norm_num [Prod.ext_iff], ?_, ?_⟩ <;>
    norm_num [Baby.check_collide, Jd.check_collide, Prod.ext_iff]

/-- C7 (amended): a zero Δt indeed contributes no budget — when the stored
leftover is at most one tick (an invariant of the solver), position,
accumulated force, and the leftover are unchanged and the output
displacement is zero.  (No clamping exists in the code, however: see
`c7_counterexample` — a negative Δt is added to the budget and propagates
into the stored leftover.  NaN is outside the exact-rational model.) -/
theorem c7_zero_delta_contributes_nothing (geom : List Collider)
    (s : PhysState) (h : s.rem ≤ 1) :
    ((Baby.check_collide geom 0 s).pos = s.pos ∧
      (Baby.check_collide geom 0 s).mov.force = s.mov.force ∧
      (Baby.check_collide geom 0 s).rem = s.rem ∧
      (Baby.check_collide geom 0 s).mov.out = (0, 0)) ∧
    ((Jd.check_collide geom 0 s).pos = s.pos ∧
      (Jd.check_collide geom 0 s).mov.force = s.mov.force ∧
      (Jd.check_collide geom 0 s).rem = s.rem ∧
      (Jd.check_collide geom 0 s).mov.out = (0, 0)) := by
  have hk : tick_count s.rem = 0 := tick_count_of_le_one h
  by_cases hz : s.mov.ctl + s.mov.force = 0
  · constructor <;> simp [Baby.check_collide, Jd.check_collide, hz]
  · constructor <;>
      simp [Baby.check_collide, Jd.check_collide, hz, hk, Prod.ext_iff]

/-- Witness for `c7_zero_delta_contributes_nothing` at a concrete state
with leftover budget 1/2. -/
theorem c7_zero_delta_contributes_nothing_witness :
    ((Baby.check_collide [] 0 ⟨(0, 0), (25, 25), ⟨(1, 0), (0, 0), (0, 0), false⟩, 1/2⟩).pos
          = (0, 0) ∧
      (Baby.check_collide [] 0 ⟨(0, 0), (25, 25), ⟨(1, 0), (0, 0), (0, 0), false⟩, 1/2⟩).mov.force
          = (0, 0) ∧
      (Baby.check_collide [] 0 ⟨(0, 0), (25, 25), ⟨(1, 0), (0, 0), (0, 0), false⟩, 1/2⟩).rem
          = 1/2 ∧
      (Baby.check_collide [] 0 ⟨(0, 0), (25, 25), ⟨(1, 0), (0, 0), (0, 0), false⟩, 1/2⟩).mov.out
          = (0, 0)) ∧
    ((Jd.check_collide [] 0 ⟨(0, 0), (25, 25), ⟨(1, 0), (0, 0), (0, 0), false⟩, 1/2⟩).pos
          = (0, 0) ∧
      (Jd.check_collide [] 0 ⟨(0, 0), (25, 25), ⟨(1, 0), (0, 0), (0, 0), false⟩, 1/2⟩).mov.force
          = (0, 0) ∧
      (Jd.check_collide [] 0 ⟨(0, 0), (25, 25), ⟨(1, 0), (0, 0), (0, 0), false⟩, 1/2⟩).rem
          = 1/2 ∧
      (Jd.check_collide [] 0 ⟨(0, 0), (25, 25), ⟨(1, 0), (0, 0), (0, 0), false⟩, 1/2⟩).mov.out
          = (0, 0)) :=
  c7_zero_delta_contributes_nothing []
    ⟨(0, 0), (25, 25), ⟨(1, 0), (0, 0), (0, 0), false⟩, 1/2⟩ (by norm_num)

/-- Counterexample to C7 as stated: a negative Δt (= -1) is NOT clamped to
zero contribution: it is multiplied by 60 and added to the budget, and the
resulting `-119/2` is stored back into the leftover — the call propagates
the negative Δt into solver state. -/
theorem c7_counterexample :
    (Baby.check_collide [] (-1)
        ⟨(0, 0), (25, 25), ⟨(1, 0), (0, 0), (0, 0), false⟩, 1/2⟩).rem = -(119/2) ∧
      (Baby.check_collide [] (-1)
          ⟨(0, 0), (25, 25), ⟨(1, 0), (0, 0), (0, 0), false⟩, 1/2⟩).rem ≠ 1/2 ∧
      (Jd.check_collide [] (-1)
          ⟨(0, 0), (25, 25), ⟨(1, 0), (0, 0), (0, 0), false⟩, 1/2⟩).rem = -(119/2) := by
  have hk : tick_count (-(119/2)) = 0 := tick_count_of_le_one (by norm_num)
  refine ⟨?_, ?_, ?_⟩ <;>
    norm_num [Baby.check_collide, Jd.check_collide, Prod.ext_iff, hk]

/-- The leftover budget and the consumed tick count determine each other:
only one `K` satisfies `a - K ≤ 1` together with `K ≥ 1 → a - K > 0`. -/
theorem budget_count_unique (a : ℚ) (K L : ℕ) (h1 : a - K ≤ 1)
    (h2 : 1 ≤ K → 0 < a - K) (h3 : a - L ≤ 1) (h4 : 1 ≤ L → 0 < a - L) :
    K = L := by
  rcases Nat.lt_trichotomy K L with h | h | h
  · exfalso
    have hL : 1 ≤ L := by omega
    have h4' := h4 hL
    have hc : (K : ℚ) + 1 ≤ (L : ℚ) := by exact_mod_cast h
    linarith
  · exact h
  · exfalso
    have hK : 1 ≤ K := by omega
    have h2' := h2 hK
    have hc : (L : ℚ) + 1 ≤ (K : ℚ) := by exact_mod_cast h
    linarith

/-- Iterating quarter-budget solver calls runs the tick function
`quarter_ks` times in total and leaves `quarter_rem^[n]` as leftover. -/
theorem solver_call_quarter_iterate {α : Type} (T : α → α) (x : α) (r : ℚ) :
    ∀ n : ℕ, (solver_call T (1/4))^[n] (x, r)
      = (T^[quarter_ks r n] x, quarter_rem^[n] r)
  | 0 => by simp [quarter_ks]
  | n + 1 => by
      rw [Function.iterate_succ_apply', solver_call_quarter_iterate T x r n,
        Function.iterate_succ_apply']
      show (T^[tick_count (quarter_rem^[n] r + 1/4)] (T^[quarter_ks r n] x),
          quarter_rem^[n] r + 1/4 - (tick_count (quarter_rem^[n] r + 1/4) : ℚ))
        = (T^[quarter_ks r (n + 1)] x, quarter_rem (quarter_rem^[n] r))
      rw [← Function.iterate_add_apply]
      have hks : quarter_ks r (n + 1)
          = tick_count (quarter_rem^[n] r + 1/4) + quarter_ks r n := by
        simp [quarter_ks, quarter_k, Nat.add_comm]
      rw [hks]
      rfl

/-- Closed form of the leftover after `n` quarter-budget calls. -/
theorem quarter_rem_eq (r : ℚ) :
    ∀ n : ℕ, quarter_rem^[n] r = r + n * (1/4) - (quarter_ks r n : ℚ)
  | 0 => by simp [quarter_ks]
  | n + 1 => by
      rw [Function.iterate_succ_apply']
      show quarter_rem^[n] r + 1/4 - (tick_count (quarter_rem^[n] r + 1/4) : ℚ) = _
      have hks : quarter_ks r (n + 1)
          = quarter_ks r n + tick_count (quarter_rem^[n] r + 1/4) := by
        simp [quarter_ks, quarter_k]
      rw [hks, quarter_rem_eq r n]
      push_cast
      ring

/-- After at least one call the leftover is at most one tick. -/
theorem quarter_rem_le_one (r : ℚ) (n : ℕ) (hn : 1 ≤ n) :
    quarter_rem^[n] r ≤ 1 := by
  obtain ⟨m, rfl⟩ : ∃ m, n = m + 1 := ⟨n - 1, by omega⟩
  rw [Function.iterate_succ_apply']
  exact tick_count_le _

/-- If the chain of quarter-budget calls consumed at least one tick, its
leftover is strictly positive. -/
theorem quarter_ks_pos_rem (r : ℚ) :
    ∀ n : ℕ, 1 ≤ quarter_ks r n → 0 < quarter_rem^[n] r
  | 0 => by simp [quarter_ks]
  | n + 1 => by
      intro h
      rw [Function.iterate_succ_apply']
      rcases Nat.eq_zero_or_pos (quarter_k (quarter_rem^[n] r)) with hk | hk
      · have hn : 1 ≤ quarter_ks r n := by
          have : quarter_ks r (n + 1) = quarter_ks r n + quarter_k (quarter_rem^[n] r) :=
            rfl
          omega
        have hrec := quarter_ks_pos_rem r n hn
        show 0 < quarter_rem^[n] r + 1/4 - (tick_count (quarter_rem^[n] r + 1/4) : ℚ)
        have hk' : tick_count (quarter_rem^[n] r + 1/4) = 0 := hk
        rw [hk']
        push_cast
        linarith
      · exact tick_count_pos_rem hk

/-- Four quarter-budget solver calls are one full-budget solver call: the
accumulated fractional budget is carried exactly and the same total number
of ticks runs, leaving the same state and the same leftover. -/
theorem solver_call_four_quarters {α : Type} (T : α → α) (x : α) (r : ℚ) :
    (solver_call T (1/4))^[4] (x, r) = solver_call T 1 (x, r) := by
  have hB : quarter_rem^[4] r = r + 1 - (quarter_ks r 4 : ℚ) := by
    rw [quarter_rem_eq r 4]
    norm_num
  have hsum : quarter_ks r 4 = tick_count (r + 1) := by
    apply budget_count_unique (r + 1)
    · rw [← hB]
      exact quarter_rem_le_one r 4 (by norm_num)
    · intro hh
      rw [← hB]
      exact quarter_ks_pos_rem r 4 hh
    · exact tick_count_le (r + 1)
    · intro hh
      exact tick_count_pos_rem hh
  rw [solver_call_quarter_iterate T x r 4]
  show (T^[quarter_ks r 4] x, quarter_rem^[4] r)
      = (T^[tick_count (r + 1)] x, r + 1 - (tick_count (r + 1) : ℚ))
  rw [hsum, hB, hsum]

/-- The climbing flag is write-only inside a resolution pass: the resulting
box, force, and pushed flag do not depend on the incoming flag. -/
theorem collide_pass_pf (cp : Aabb → Collide → Aabb → Vec2 × Bool × Bool)
    (ctl : Vec2) :
    ∀ (colls : List (ℚ × Collide × Aabb)) (a : Aabb) (f : Vec2) (cl cl' pu : Bool),
      (collide_pass cp ctl colls ((a, f, cl), pu)).1.1
          = (collide_pass cp ctl colls ((a, f, cl'), pu)).1.1 ∧
        (collide_pass cp ctl colls ((a, f, cl), pu)).1.2.1
          = (collide_pass cp ctl colls ((a, f, cl'), pu)).1.2.1 ∧
        (collide_pass cp ctl colls ((a, f, cl), pu)).2
          = (collide_pass cp ctl colls ((a, f, cl'), pu)).2
  | [], a, f, cl, cl', pu => ⟨rfl, rfl, rfl⟩
  | c :: rest, a, f, cl, cl', pu => by
      simp only [collide_pass]
      split_ifs <;>
        first
          | exact ⟨rfl, rfl, rfl⟩
          | exact collide_pass_pf cp ctl rest _ _ _ _ _

/-- `collide_passes` inherits the climb-independence of `collide_pass`:
the final box and force do not depend on the incoming climbing flag. -/
theorem collide_passes_pf (cp : Aabb → Collide → Aabb → Vec2 × Bool × Bool)
    (ctl : Vec2) (colls : List (ℚ × Collide × Aabb)) :
    ∀ (n : ℕ) (a : Aabb) (f : Vec2) (cl cl' : Bool),
      (collide_passes cp ctl colls n (a, f, cl)).1
          = (collide_passes cp ctl colls n (a, f, cl')).1 ∧
        (collide_passes cp ctl colls n (a, f, cl)).2.1
          = (collide_passes cp ctl colls n (a, f, cl')).2.1
  | 0, a, f, cl, cl' => ⟨rfl, rfl⟩
  | n + 1, a, f, cl, cl' => by
      obtain ⟨e1, e2, e3⟩ := collide_pass_pf cp ctl colls a f cl cl' false
      simp only [collide_passes]
      by_cases hp : (collide_pass cp ctl colls ((a, f, cl), false)).2
      · rw [if_pos hp, if_pos (e3 ▸ hp)]
        have step₁ := collide_passes_pf cp ctl colls n
          (collide_pass cp ctl colls ((a, f, cl), false)).1.1
          (collide_pass cp ctl colls ((a, f, cl), false)).1.2.1
          (collide_pass cp ctl colls ((a, f, cl), false)).1.2.2
          (collide_pass cp ctl colls ((a, f, cl'), false)).1.2.2
        have hT : ((collide_pass cp ctl colls ((a, f, cl), false)).1.1,
              (collide_pass cp ctl colls ((a, f, cl), false)).1.2.1,
              (collide_pass cp ctl colls ((a, f, cl'), false)).1.2.2)
            = (collide_pass cp ctl colls ((a, f, cl'), false)).1 := by
          rw [e1, e2]
        rw [hT] at step₁
        exact step₁
      · rw [if_neg hp, if_neg (fun hh => hp (e3 ▸ hh))]
        exact ⟨e1, e2⟩

/-- One `Baby.physics_tick` moves the box and force independently of the
incoming climbing flag: its (center, force) projection is `Baby.tick_pf`. -/
theorem baby_physics_tick_pf (geom : List Collider) (half ctl : Vec2)
    (p f : Vec2) (cl : Bool) :
    ((Baby.physics_tick geom half ctl (p, f, cl)).1,
        (Baby.physics_tick geom half ctl (p, f, cl)).2.1)
      = Baby.tick_pf geom half ctl (p, f) := by
  obtain ⟨e1, e2⟩ := collide_passes_pf Baby.collide_push ctl
    (gather_collisions geom
      (Aabb.fromCenter
        (p.1 + ctl.1 + (f.1, f.2 + (-9.8 / 60 : ℚ)).1,
          p.2 + ctl.2 + (f.1, f.2 + (-9.8 / 60 : ℚ)).2) half))
    3
    (Aabb.fromCenter
      (p.1 + ctl.1 + (f.1, f.2 + (-9.8 / 60 : ℚ)).1,
        p.2 + ctl.2 + (f.1, f.2 + (-9.8 / 60 : ℚ)).2) half)
    (f.1, f.2 + (-9.8 / 60 : ℚ)) cl false
  show ((collide_passes Baby.collide_push ctl _ 3 (_, _, cl)).1.center,
      (collide_passes Baby.collide_push ctl _ 3 (_, _, cl)).2.1)
    = ((collide_passes Baby.collide_push ctl _ 3 (_, _, false)).1.center,
      (collide_passes Baby.collide_push ctl _ 3 (_, _, false)).2.1)
  rw [e1, e2]

/-- `Jd` counterpart of `baby_physics_tick_pf` (single pass). -/
theorem jd_physics_tick_pf (geom : List Collider) (half ctl : Vec2)
    (p f : Vec2) (cl : Bool) :
    ((Jd.physics_tick geom half ctl (p, f, cl)).1,
        (Jd.physics_tick geom half ctl (p, f, cl)).2.1)
      = Jd.tick_pf geom half ctl (p, f) := by
  obtain ⟨e1, e2, e3⟩ := collide_pass_pf Jd.collide_push ctl
    (gather_collisions geom
      (Aabb.fromCenter
        (p.1 + ctl.1 + (f.1, f.2 + (-9.8 / 60 : ℚ)).1,
          p.2 + ctl.2 + (f.1, f.2 + (-9.8 / 60 : ℚ)).2) half))
    (Aabb.fromCenter
      (p.1 + ctl.1 + (f.1, f.2 + (-9.8 / 60 : ℚ)).1,
        p.2 + ctl.2 + (f.1, f.2 + (-9.8 / 60 : ℚ)).2) half)
    (f.1, f.2 + (-9.8 / 60 : ℚ)) cl false false
  show ((collide_pass Jd.collide_push ctl _ ((_, _, cl), false)).1.1.center,
      (collide_pass Jd.collide_push ctl _ ((_, _, cl), false)).1.2.1)
    = ((collide_pass Jd.collide_push ctl _ ((_, _, false), false)).1.1.center,
      (collide_pass Jd.collide_push ctl _ ((_, _, false), false)).1.2.1)
  rw [e1, e2]

/-- Iterating a tick whose (center, force) projection factors through a
pair map `T2` projects to iterating `T2`, whatever the climbing flag. -/
theorem iterate_pf {T : Vec2 × Vec2 × Bool → Vec2 × Vec2 × Bool}
    {T2 : Vec2 × Vec2 → Vec2 × Vec2}
    (hT : ∀ p f cl, ((T (p, f, cl)).1, (T (p, f, cl)).2.1) = T2 (p, f)) :
    ∀ (k : ℕ) (p f : Vec2) (cl : Bool),
      ((T^[k] (p, f, cl)).1, (T^[k] (p, f, cl)).2.1) = T2^[k] (p, f) := by
  intro k
  induction k with
  | zero => intro p f cl; simp
  | succ n ih =>
      intro p f cl
      rw [Function.iterate_succ_apply', Function.iterate_succ_apply']
      have h1 := hT (T^[n] (p, f, cl)).1 (T^[n] (p, f, cl)).2.1 (T^[n] (p, f, cl)).2.2
      calc ((T (T^[n] (p, f, cl))).1, (T (T^[n] (p, f, cl))).2.1)
          = T2 ((T^[n] (p, f, cl)).1, (T^[n] (p, f, cl)).2.1) := h1
        _ = T2 (T2^[n] (p, f)) := by rw [ih p f cl]

/-- The non-idle path of `check_collide` followed by the
displacement-application step of `update_movement` (kill box aside), in
closed form: the transform ends at the iterated tick's center, the force at
its force, the leftover at `dt - tick_count dt`; half extent and control
are untouched. -/
theorem baby_frame_spec (geom : List Collider) (delta : ℚ) (s : PhysState)
    (h : s.mov.ctl + s.mov.force ≠ 0) :
    (apply_out (Baby.check_collide geom delta s)).pos
        = ((Baby.tick_pf geom s.half s.mov.ctl)^[tick_count (s.rem + delta * 60)]
          (s.pos, s.mov.force)).1 ∧
      (apply_out (Baby.check_collide geom delta s)).mov.force
        = ((Baby.tick_pf geom s.half s.mov.ctl)^[tick_count (s.rem + delta * 60)]
          (s.pos, s.mov.force)).2 ∧
      (apply_out (Baby.check_collide geom delta s)).rem
        = s.rem + delta * 60 - tick_count (s.rem + delta * 60) ∧
      (apply_out (Baby.check_collide geom delta s)).half = s.half ∧
      (apply_out (Baby.check_collide geom delta s)).mov.ctl = s.mov.ctl := by
  have hit := iterate_pf (fun p f cl => baby_physics_tick_pf geom s.half s.mov.ctl p f cl)
    (tick_count (s.rem + delta * 60)) s.pos s.mov.force false
  have h1 := congrArg Prod.fst hit
  have h2 := congrArg Prod.snd hit
  dsimp only at h1 h2
  unfold apply_out Baby.check_collide
  rw [if_neg h]
  refine ⟨?_, h2, rfl, rfl, rfl⟩
  show s.pos + (((Baby.physics_tick geom s.half s.mov.ctl)^[tick_count (s.rem + delta * 60)]
      (s.pos, s.mov.force, false)).1 - s.pos) = _
  rw [h1, add_comm, sub_add_cancel]

/-- `Jd` counterpart of `baby_frame_spec`. -/
theorem jd_frame_spec (geom : List Collider) (delta : ℚ) (s : PhysState)
    (h : s.mov.ctl + s.mov.force ≠ 0) :
    (apply_out (Jd.check_collide geom delta s)).pos
        = ((Jd.tick_pf geom s.half s.mov.ctl)^[tick_count (s.rem + delta * 60)]
          (s.pos, s.mov.force)).1 ∧
      (apply_out (Jd.check_collide geom delta s)).mov.force
        = ((Jd.tick_pf geom s.half s.mov.ctl)^[tick_count (s.rem + delta * 60)]
          (s.pos, s.mov.force)).2 ∧
      (apply_out (Jd.check_collide geom delta s)).rem
        = s.rem + delta * 60 - tick_count (s.rem + delta * 60) ∧
      (apply_out (Jd.check_collide geom delta s)).half = s.half ∧
      (apply_out (Jd.check_collide geom delta s)).mov.ctl = s.mov.ctl := by
  have hit := iterate_pf (fun p f cl => jd_physics_tick_pf geom s.half s.mov.ctl p f cl)
    (tick_count (s.rem + delta * 60)) s.pos s.mov.force false
  have h1 := congrArg Prod.fst hit
  have h2 := congrArg Prod.snd hit
  dsimp only at h1 h2
  unfold apply_out Jd.check_collide
  rw [if_neg h]
  refine ⟨?_, h2, rfl, rfl, rfl⟩
  show s.pos + (((Jd.physics_tick geom s.half s.mov.ctl)^[tick_count (s.rem + delta * 60)]
      (s.pos, s.mov.force, false)).1 - s.pos) = _
  rw [h1, add_comm, sub_add_cancel]

/-- Generic four-quarter-calls vs one-full-call equivalence for a frame
function satisfying the `frame_spec` shape, provided no intermediate call
hits the idle early-return. -/
theorem four_quarter_frames_eq
    (F : ℚ → PhysState → PhysState)
    (T : Vec2 → Vec2 → Vec2 × Vec2 → Vec2 × Vec2)
    (hspec : ∀ (delta : ℚ) (s : PhysState), s.mov.ctl + s.mov.force ≠ 0 →
      (F delta s).pos = ((T s.half s.mov.ctl)^[tick_count (s.rem + delta * 60)]
          (s.pos, s.mov.force)).1 ∧
        (F delta s).mov.force = ((T s.half s.mov.ctl)^[tick_count (s.rem + delta * 60)]
          (s.pos, s.mov.force)).2 ∧
        (F delta s).rem = s.rem + delta * 60 - tick_count (s.rem + delta * 60) ∧
        (F delta s).half = s.half ∧
        (F delta s).mov.ctl = s.mov.ctl)
    (s0 : PhysState)
    (hb : ∀ i : Fin 4, ((F (1/240))^[i.val] s0).mov.ctl
        + ((F (1/240))^[i.val] s0).mov.force ≠ 0) :
    ((F (1/240))^[4] s0).pos = (F (1/60) s0).pos ∧
      ((F (1/240))^[4] s0).mov.force = (F (1/60) s0).mov.force ∧
      ((F (1/240))^[4] s0).rem = (F (1/60) s0).rem := by
  have key : ∀ s : PhysState, s.mov.ctl + s.mov.force ≠ 0 →
      s.half = s0.half → s.mov.ctl = s0.mov.ctl →
      (((F (1/240) s).pos, (F (1/240) s).mov.force), (F (1/240) s).rem)
          = solver_call (T s0.half s0.mov.ctl) (1/4) ((s.pos, s.mov.force), s.rem) ∧
        (F (1/240) s).half = s0.half ∧ (F (1/240) s).mov.ctl = s0.mov.ctl := by
    intro s hs hh hc
    obtain ⟨e1, e2, e3, e4, e5⟩ := hspec (1/240) s hs
    have hq : s.rem + (1/240 : ℚ) * 60 = s.rem + 1/4 := by norm_num
    refine ⟨?_, by rw [e4, hh], by rw [e5, hc]⟩
    have e1' : (F (1/240) s).pos
        = ((T s0.half s0.mov.ctl)^[tick_count (s.rem + 1/4)] (s.pos, s.mov.force)).1 := by
      rw [e1, hh, hc, hq]
    have e2' : (F (1/240) s).mov.force
        = ((T s0.half s0.mov.ctl)^[tick_count (s.rem + 1/4)] (s.pos, s.mov.force)).2 := by
      rw [e2, hh, hc, hq]
    have e3' : (F (1/240) s).rem
        = s.rem + 1/4 - tick_count (s.rem + 1/4) := by
      rw [e3, hq]
    rw [e1', e2', e3']
    rfl
  have K0 := key s0 (hb ⟨0, by norm_num⟩) rfl rfl
  have K1 := key (F (1/240) s0) (hb ⟨1, by norm_num⟩) K0.2.1 K0.2.2
  have K2 := key (F (1/240) (F (1/240) s0)) (hb ⟨2, by norm_num⟩) K1.2.1 K1.2.2
  have K3 := key (F (1/240) (F (1/240) (F (1/240) s0))) (hb ⟨3, by norm_num⟩)
    K2.2.1 K2.2.2
  have comp :
      (((F (1/240) (F (1/240) (F (1/240) (F (1/240) s0)))).pos,
          (F (1/240) (F (1/240) (F (1/240) (F (1/240) s0)))).mov.force),
        (F (1/240) (F (1/240) (F (1/240) (F (1/240) s0)))).rem)
        = (solver_call (T s0.half s0.mov.ctl) (1/4))^[4]
          ((s0.pos, s0.mov.force), s0.rem) := by
    show _ = solver_call (T s0.half s0.mov.ctl) (1/4)
      (solver_call (T s0.half s0.mov.ctl) (1/4)
        (solver_call (T s0.half s0.mov.ctl) (1/4)
          (solver_call (T s0.half s0.mov.ctl) (1/4) ((s0.pos, s0.mov.force), s0.rem))))
    rw [← K0.1, ← K1.1, ← K2.1, ← K3.1]
  rw [solver_call_four_quarters] at comp
  obtain ⟨f1, f2, f3, f4, f5⟩ := hspec (1/60) s0 (hb ⟨0, by norm_num⟩)
  have hq1 : s0.rem + (1/60 : ℚ) * 60 = s0.rem + 1 := by norm_num
  have single :
      (((F (1/60) s0).pos, (F (1/60) s0).mov.force), (F (1/60) s0).rem)
        = solver_call (T s0.half s0.mov.ctl) 1 ((s0.pos, s0.mov.force), s0.rem) := by
    have f1' : (F (1/60) s0).pos
        = ((T s0.half s0.mov.ctl)^[tick_count (s0.rem + 1)] (s0.pos, s0.mov.force)).1 := by
      rw [f1, hq1]
    have f2' : (F (1/60) s0).mov.force
        = ((T s0.half s0.mov.ctl)^[tick_count (s0.rem + 1)] (s0.pos, s0.mov.force)).2 := by
      rw [f2, hq1]
    have f3' : (F (1/60) s0).rem = s0.rem + 1 - tick_count (s0.rem + 1) := by
      rw [f3, hq1]
    rw [f1', f2', f3']
    rfl
  have final := comp.trans single.symm
  exact ⟨congrArg (fun z => z.1.1) final, congrArg (fun z => z.1.2) final,
    congrArg (fun z => z.2) final⟩

/-- Projection of the kill box on the transform translation. -/
theorem kill_box_pos (s : PhysState) :
    (kill_box s).pos = if s.pos.2 < -1000 then ((0 : ℚ), (0 : ℚ)) else s.pos := by
  unfold kill_box
  split_ifs <;> rfl

/-- The kill box never touches the `Movement` component. -/
theorem kill_box_mov (s : PhysState) : (kill_box s).mov = s.mov := by
  unfold kill_box
  split_ifs <;> rfl

/-- The kill box never touches the leftover sub-tick budget. -/
theorem kill_box_rem (s : PhysState) : (kill_box s).rem = s.rem := by
  unfold kill_box
  split_ifs <;> rfl

/-- C5 (amended): provided (i) the solver is not Idle (`ctl + force ≠ 0`,
the early-return of C8) at the start of any of the four 1/240-second calls
— the 1/60-second call starts from the same first state — and (ii) the
kill box of `update_movement` does not fire at any of the first three
1/240-second calls (the position the solver computes there stays at
`y ≥ -1000`; a reset at the fourth call is harmless because both
schedules reach the same pre-kill position), running either prototype's
solver-plus-movement frame four times with Δt = 1/240 produces the same
final position (hence the same cumulative displacement), the same
accumulated force, and the same leftover sub-tick budget as running it
once with Δt = 1/60, for identical control input and static geometry.
Without proviso (i) an intermediate Idle early-return drops that call's
budget (see `c5_counterexample`); without proviso (ii) a mid-sequence
kill-box reset can fire on the four-call path only. -/
theorem c5_fixed_timestep_four_vs_one (geom : List Collider) (s0 : PhysState) :
    ((∀ i : Fin 4, ((Baby.frame geom (1/240))^[i.val] s0).mov.ctl
          + ((Baby.frame geom (1/240))^[i.val] s0).mov.force ≠ 0) →
      (∀ i : Fin 3,
        -1000 ≤ ((Baby.check_collide geom (1/240)
              ((Baby.frame geom (1/240))^[i.val] s0)).pos
            + (Baby.check_collide geom (1/240)
              ((Baby.frame geom (1/240))^[i.val] s0)).mov.out).2) →
      ((Baby.frame geom (1/240))^[4] s0).pos = (Baby.frame geom (1/60) s0).pos ∧
        ((Baby.frame geom (1/240))^[4] s0).mov.force
          = (Baby.frame geom (1/60) s0).mov.force ∧
        ((Baby.frame geom (1/240))^[4] s0).rem = (Baby.frame geom (1/60) s0).rem) ∧
    ((∀ i : Fin 4, ((Jd.frame geom (1/240))^[i.val] s0).mov.ctl
          + ((Jd.frame geom (1/240))^[i.val] s0).mov.force ≠ 0) →
      (∀ i : Fin 3,
        -1000 ≤ ((Jd.check_collide geom (1/240)
              ((Jd.frame geom (1/240))^[i.val] s0)).pos
            + (Jd.check_collide geom (1/240)
              ((Jd.frame geom (1/240))^[i.val] s0)).mov.out).2) →
      ((Jd.frame geom (1/240))^[4] s0).pos = (Jd.frame geom (1/60) s0).pos ∧
        ((Jd.frame geom (1/240))^[4] s0).mov.force
          = (Jd.frame geom (1/60) s0).mov.force ∧
        ((Jd.frame geom (1/240))^[4] s0).rem = (Jd.frame geom (1/60) s0).rem) := by
  constructor
  · intro hb hk
    have noKill : ∀ s : PhysState,
        -1000 ≤ ((Baby.check_collide geom (1/240) s).pos
            + (Baby.check_collide geom (1/240) s).mov.out).2 →
        Baby.frame geom (1/240) s = apply_out (Baby.check_collide geom (1/240) s) := by
      intro s hs
      unfold Baby.frame update_movement kill_box
      split_ifs with hcond
      · exact absurd hcond (not_lt.mpr hs)
      · rfl
    have hb0 : s0.mov.ctl + s0.mov.force ≠ 0 := hb ⟨0, by norm_num⟩
    have hb1 : (Baby.frame geom (1/240) s0).mov.ctl
        + (Baby.frame geom (1/240) s0).mov.force ≠ 0 := hb ⟨1, by norm_num⟩
    have hb2 : (Baby.frame geom (1/240) (Baby.frame geom (1/240) s0)).mov.ctl
        + (Baby.frame geom (1/240) (Baby.frame geom (1/240) s0)).mov.force ≠ 0 :=
      hb ⟨2, by norm_num⟩
    have hb3 : (Baby.frame geom (1/240) (Baby.frame geom (1/240)
          (Baby.frame geom (1/240) s0))).mov.ctl
        + (Baby.frame geom (1/240) (Baby.frame geom (1/240)
          (Baby.frame geom (1/240) s0))).mov.force ≠ 0 := hb ⟨3, by norm_num⟩
    have hk0 : -1000 ≤ ((Baby.check_collide geom (1/240) s0).pos
        + (Baby.check_collide geom (1/240) s0).mov.out).2 := hk ⟨0, by norm_num⟩
    have hk1 : -1000 ≤ ((Baby.check_collide geom (1/240)
          (Baby.frame geom (1/240) s0)).pos
        + (Baby.check_collide geom (1/240)
          (Baby.frame geom (1/240) s0)).mov.out).2 := hk ⟨1, by norm_num⟩
    have hk2 : -1000 ≤ ((Baby.check_collide geom (1/240)
          (Baby.frame geom (1/240) (Baby.frame geom (1/240) s0))).pos
        + (Baby.check_collide geom (1/240)
          (Baby.frame geom (1/240) (Baby.frame geom (1/240) s0))).mov.out).2 :=
      hk ⟨2, by norm_num⟩
    have f1 : Baby.frame geom (1/240) s0
        = apply_out (Baby.check_collide geom (1/240) s0) := noKill s0 hk0
    have f2 : Baby.frame geom (1/240) (Baby.frame geom (1/240) s0)
        = apply_out (Baby.check_collide geom (1/240)
          (apply_out (Baby.check_collide geom (1/240) s0))) := by
      rw [f1] at hk1 ⊢
      exact noKill _ hk1
    have f3 : Baby.frame geom (1/240) (Baby.frame geom (1/240)
          (Baby.frame geom (1/240) s0))
        = apply_out (Baby.check_collide geom (1/240)
          (apply_out (Baby.check_collide geom (1/240)
            (apply_out (Baby.check_collide geom (1/240) s0))))) := by
      rw [f2] at hk2 ⊢
      exact noKill _ hk2
    have hb1' := f1 ▸ hb1
    have hb2' := f2 ▸ hb2
    have hb3' := f3 ▸ hb3
    have res := four_quarter_frames_eq
      (fun delta s => apply_out (Baby.check_collide geom delta s))
      (fun h c => Baby.tick_pf geom h c)
      (fun delta s hs => baby_frame_spec geom delta s hs) s0
      (by
        intro i
        fin_cases i
        · exact hb0
        · exact hb1'
        · exact hb2'
        · exact hb3')
    have res1 : (apply_out (Baby.check_collide geom (1/240)
          (apply_out (Baby.check_collide geom (1/240)
            (apply_out (Baby.check_collide geom (1/240)
              (apply_out (Baby.check_collide geom (1/240) s0)))))))).pos
        = (apply_out (Baby.check_collide geom (1/60) s0)).pos := res.1
    have res2 : (apply_out (Baby.check_collide geom (1/240)
          (apply_out (Baby.check_collide geom (1/240)
            (apply_out (Baby.check_collide geom (1/240)
              (apply_out (Baby.check_collide geom (1/240) s0)))))))).mov.force
        = (apply_out (Baby.check_collide geom (1/60) s0)).mov.force := res.2.1
    have res3 : (apply_out (Baby.check_collide geom (1/240)
          (apply_out (Baby.check_collide geom (1/240)
            (apply_out (Baby.check_collide geom (1/240)
              (apply_out (Baby.check_collide geom (1/240) s0)))))))).rem
        = (apply_out (Baby.check_collide geom (1/60) s0)).rem := res.2.2
    have e4 : (Baby.frame geom (1/240))^[4] s0
        = kill_box (apply_out (Baby.check_collide geom (1/240)
          (apply_out (Baby.check_collide geom (1/240)
            (apply_out (Baby.check_collide geom (1/240)
              (apply_out (Baby.check_collide geom (1/240) s0)))))))) := by
      show Baby.frame geom (1/240) (Baby.frame geom (1/240)
        (Baby.frame geom (1/240) (Baby.frame geom (1/240) s0))) = _
      rw [f3]
      rfl
    have esingle : Baby.frame geom (1/60) s0
        = kill_box (apply_out (Baby.check_collide geom (1/60) s0)) := rfl
    refine ⟨?_, ?_, ?_⟩
    · rw [e4, esingle, kill_box_pos, kill_box_pos, res1]
    · rw [e4, esingle, kill_box_mov, kill_box_mov]
      exact res2
    · rw [e4, esingle, kill_box_rem, kill_box_rem]
      exact res3
  · intro hb hk
    have noKill : ∀ s : PhysState,
        -1000 ≤ ((Jd.check_collide geom (1/240) s).pos
            + (Jd.check_collide geom (1/240) s).mov.out).2 →
        Jd.frame geom (1/240) s = apply_out (Jd.check_collide geom (1/240) s) := by
      intro s hs
      unfold Jd.frame update_movement kill_box
      split_ifs with hcond
      · exact absurd hcond (not_lt.mpr hs)
      · rfl
    have hb0 : s0.mov.ctl + s0.mov.force ≠ 0 := hb ⟨0, by norm_num⟩
    have hb1 : (Jd.frame geom (1/240) s0).mov.ctl
        + (Jd.frame geom (1/240) s0).mov.force ≠ 0 := hb ⟨1, by norm_num⟩
    have hb2 : (Jd.frame geom (1/240) (Jd.frame geom (1/240) s0)).mov.ctl
        + (Jd.frame geom (1/240) (Jd.frame geom (1/240) s0)).mov.force ≠ 0 :=
      hb ⟨2, by norm_num⟩
    have hb3 : (Jd.frame geom (1/240) (Jd.frame geom (1/240)
          (Jd.frame geom (1/240) s0))).mov.ctl
        + (Jd.frame geom (1/240) (Jd.frame geom (1/240)
          (Jd.frame geom (1/240) s0))).mov.force ≠ 0 := hb ⟨3, by norm_num⟩
    have hk0 : -1000 ≤ ((Jd.check_collide geom (1/240) s0).pos
        + (Jd.check_collide geom (1/240) s0).mov.out).2 := hk ⟨0, by norm_num⟩
    have hk1 : -1000 ≤ ((Jd.check_collide geom (1/240)
          (Jd.frame geom (1/240) s0)).pos
        + (Jd.check_collide geom (1/240)
          (Jd.frame geom (1/240) s0)).mov.out).2 := hk ⟨1, by norm_num⟩
    have hk2 : -1000 ≤ ((Jd.check_collide geom (1/240)
          (Jd.frame geom (1/240) (Jd.frame geom (1/240) s0))).pos
        + (Jd.check_collide geom (1/240)
          (Jd.frame geom (1/240) (Jd.frame geom (1/240) s0))).mov.out).2 :=
      hk ⟨2, by norm_num⟩
    have f1 : Jd.frame geom (1/240) s0
        = apply_out (Jd.check_collide geom (1/240) s0) := noKill s0 hk0
    have f2 : Jd.frame geom (1/240) (Jd.frame geom (1/240) s0)
        = apply_out (Jd.check_collide geom (1/240)
          (apply_out (Jd.check_collide geom (1/240) s0))) := by
      rw [f1] at hk1 ⊢
      exact noKill _ hk1
    have f3 : Jd.frame geom (1/240) (Jd.frame geom (1/240)
          (Jd.frame geom (1/240) s0))
        = apply_out (Jd.check_collide geom (1/240)
          (apply_out (Jd.check_collide geom (1/240)
            (apply_out (Jd.check_collide geom (1/240) s0))))) := by
      rw [f2] at hk2 ⊢
      exact noKill _ hk2
    have hb1' := f1 ▸ hb1
    have hb2' := f2 ▸ hb2
    have hb3' := f3 ▸ hb3
    have res := four_quarter_frames_eq
      (fun delta s => apply_out (Jd.check_collide geom delta s))
      (fun h c => Jd.tick_pf geom h c)
      (fun delta s hs => jd_frame_spec geom delta s hs) s0
      (by
        intro i
        fin_cases i
        · exact hb0
        · exact hb1'
        · exact hb2'
        · exact hb3')
    have res1 : (apply_out (Jd.check_collide geom (1/240)
          (apply_out (Jd.check_collide geom (1/240)
            (apply_out (Jd.check_collide geom (1/240)
              (apply_out (Jd.check_collide geom (1/240) s0)))))))).pos
        = (apply_out (Jd.check_collide geom (1/60) s0)).pos := res.1
    have res2 : (apply_out (Jd.check_collide geom (1/240)
          (apply_out (Jd.check_collide geom (1/240)
            (apply_out (Jd.check_collide geom (1/240)
              (apply_out (Jd.check_collide geom (1/240) s0)))))))).mov.force
        = (apply_out (Jd.check_collide geom (1/60) s0)).mov.force := res.2.1
    have res3 : (apply_out (Jd.check_collide geom (1/240)
          (apply_out (Jd.check_collide geom (1/240)
            (apply_out (Jd.check_collide geom (1/240)
              (apply_out (Jd.check_collide geom (1/240) s0)))))))).rem
        = (apply_out (Jd.check_collide geom (1/60) s0)).rem := res.2.2
    have e4 : (Jd.frame geom (1/240))^[4] s0
        = kill_box (apply_out (Jd.check_collide geom (1/240)
          (apply_out (Jd.check_collide geom (1/240)
            (apply_out (Jd.check_collide geom (1/240)
              (apply_out (Jd.check_collide geom (1/240) s0)))))))) := by
      show Jd.frame geom (1/240) (Jd.frame geom (1/240)
        (Jd.frame geom (1/240) (Jd.frame geom (1/240) s0))) = _
      rw [f3]
      rfl
    have esingle : Jd.frame geom (1/60) s0
        = kill_box (apply_out (Jd.check_collide geom (1/60) s0)) := rfl
    refine ⟨?_, ?_, ?_⟩
    · rw [e4, esingle, kill_box_pos, kill_box_pos, res1]
    · rw [e4, esingle, kill_box_mov, kill_box_mov]
      exact res2
    · rw [e4, esingle, kill_box_rem, kill_box_rem]
      exact res3

/-- Witness for `c5_fixed_timestep_four_vs_one`: empty geometry, control
`(1, 0)`, no initial force or leftover.  Every sub-call is non-idle (the
control's x-component keeps the sum nonzero) and the box never leaves the
origin, so the kill box never fires. -/
theorem c5_fixed_timestep_four_vs_one_witness :
    (((Baby.frame [] (1/240))^[4] ⟨(0, 0), (25, 25), ⟨(1, 0), (0, 0), (0, 0), false⟩, 0⟩).pos
        = (Baby.frame [] (1/60) ⟨(0, 0), (25, 25), ⟨(1, 0), (0, 0), (0, 0), false⟩, 0⟩).pos ∧
      ((Baby.frame [] (1/240))^[4] ⟨(0, 0), (25, 25), ⟨(1, 0), (0, 0), (0, 0), false⟩, 0⟩).mov.force
        = (Baby.frame [] (1/60) ⟨(0, 0), (25, 25), ⟨(1, 0), (0, 0), (0, 0), false⟩, 0⟩).mov.force ∧
      ((Baby.frame [] (1/240))^[4] ⟨(0, 0), (25, 25), ⟨(1, 0), (0, 0), (0, 0), false⟩, 0⟩).rem
        = (Baby.frame [] (1/60) ⟨(0, 0), (25, 25), ⟨(1, 0), (0, 0), (0, 0), false⟩, 0⟩).rem) ∧
    (((Jd.frame [] (1/240))^[4] ⟨(0, 0), (25, 25), ⟨(1, 0), (0, 0), (0, 0), false⟩, 0⟩).pos
        = (Jd.frame [] (1/60) ⟨(0, 0), (25, 25), ⟨(1, 0), (0, 0), (0, 0), false⟩, 0⟩).pos ∧
      ((Jd.frame [] (1/240))^[4] ⟨(0, 0), (25, 25), ⟨(1, 0), (0, 0), (0, 0), false⟩, 0⟩).mov.force
        = (Jd.frame [] (1/60) ⟨(0, 0), (25, 25), ⟨(1, 0), (0, 0), (0, 0), false⟩, 0⟩).mov.force ∧
      ((Jd.frame [] (1/240))^[4] ⟨(0, 0), (25, 25), ⟨(1, 0), (0, 0), (0, 0), false⟩, 0⟩).rem
        = (Jd.frame [] (1/60) ⟨(0, 0), (25, 25), ⟨(1, 0), (0, 0), (0, 0), false⟩, 0⟩).rem) := by
  have t1 : tick_count (1/4 : ℚ) = 0 := tick_count_of_le_one (by norm_num)
  have t2 : tick_count (1/2 : ℚ) = 0 := tick_count_of_le_one (by norm_num)
  have t3 : tick_count (3/4 : ℚ) = 0 := tick_count_of_le_one (by norm_num)
  have cb1 : Baby.check_collide [] (1/240) ⟨(0, 0), (25, 25), ⟨(1, 0), (0, 0), (0, 0), false⟩, 0⟩
      = ⟨(0, 0), (25, 25), ⟨(1, 0), (0, 0), (0, 0), false⟩, 1/4⟩ := by
    norm_num [Baby.check_collide, t1, PhysState.mk.injEq, Movement.mk.injEq, Prod.ext_iff]
  have cb2 : Baby.check_collide [] (1/240) ⟨(0, 0), (25, 25), ⟨(1, 0), (0, 0), (0, 0), false⟩, 1/4⟩
      = ⟨(0, 0), (25, 25), ⟨(1, 0), (0, 0), (0, 0), false⟩, 1/2⟩ := by
    norm_num [Baby.check_collide, t2, PhysState.mk.injEq, Movement.mk.injEq, Prod.ext_iff]
  have cb3 : Baby.check_collide [] (1/240) ⟨(0, 0), (25, 25), ⟨(1, 0), (0, 0), (0, 0), false⟩, 1/2⟩
      = ⟨(0, 0), (25, 25), ⟨(1, 0), (0, 0), (0, 0), false⟩, 3/4⟩ := by
    norm_num [Baby.check_collide, t3, PhysState.mk.injEq, Movement.mk.injEq, Prod.ext_iff]
  have cj1 : Jd.check_collide [] (1/240) ⟨(0, 0), (25, 25), ⟨(1, 0), (0, 0), (0, 0), false⟩, 0⟩
      = ⟨(0, 0), (25, 25), ⟨(1, 0), (0, 0), (0, 0), false⟩, 1/4⟩ := by
    norm_num [Jd.check_collide, t1, PhysState.mk.injEq, Movement.mk.injEq, Prod.ext_iff]
  have cj2 : Jd.check_collide [] (1/240) ⟨(0, 0), (25, 25), ⟨(1, 0), (0, 0), (0, 0), false⟩, 1/4⟩
      = ⟨(0, 0), (25, 25), ⟨(1, 0), (0, 0), (0, 0), false⟩, 1/2⟩ := by
    norm_num [Jd.check_collide, t2, PhysState.mk.injEq, Movement.mk.injEq, Prod.ext_iff]
  have cj3 : Jd.check_collide [] (1/240) ⟨(0, 0), (25, 25), ⟨(1, 0), (0, 0), (0, 0), false⟩, 1/2⟩
      = ⟨(0, 0), (25, 25), ⟨(1, 0), (0, 0), (0, 0), false⟩, 3/4⟩ := by
    norm_num [Jd.check_collide, t3, PhysState.mk.injEq, Movement.mk.injEq, Prod.ext_iff]
  have eb1 : Baby.frame [] (1/240) ⟨(0, 0), (25, 25), ⟨(1, 0), (0, 0), (0, 0), false⟩, 0⟩
      = ⟨(0, 0), (25, 25), ⟨(1, 0), (0, 0), (0, 0), false⟩, 1/4⟩ := by
    show update_movement (Baby.check_collide [] (1/240)
      ⟨(0, 0), (25, 25), ⟨(1, 0), (0, 0), (0, 0), false⟩, 0⟩) = _
    rw [cb1]
    norm_num [update_movement, apply_out, kill_box,
      PhysState.mk.injEq, Movement.mk.injEq, Prod.ext_iff]
  have eb2 : Baby.frame [] (1/240) ⟨(0, 0), (25, 25), ⟨(1, 0), (0, 0), (0, 0), false⟩, 1/4⟩
      = ⟨(0, 0), (25, 25), ⟨(1, 0), (0, 0), (0, 0), false⟩, 1/2⟩ := by
    show update_movement (Baby.check_collide [] (1/240)
      ⟨(0, 0), (25, 25), ⟨(1, 0), (0, 0), (0, 0), false⟩, 1/4⟩) = _
    rw [cb2]
    norm_num [update_movement, apply_out, kill_box,
      PhysState.mk.injEq, Movement.mk.injEq, Prod.ext_iff]
  have eb3 : Baby.frame [] (1/240) ⟨(0, 0), (25, 25), ⟨(1, 0), (0, 0), (0, 0), false⟩, 1/2⟩
      = ⟨(0, 0), (25, 25), ⟨(1, 0), (0, 0), (0, 0), false⟩, 3/4⟩ := by
    show update_movement (Baby.check_collide [] (1/240)
      ⟨(0, 0), (25, 25), ⟨(1, 0), (0, 0), (0, 0), false⟩, 1/2⟩) = _
    rw [cb3]
    norm_num [update_movement, apply_out, kill_box,
      PhysState.mk.injEq, Movement.mk.injEq, Prod.ext_iff]
  have ej1 : Jd.frame [] (1/240) ⟨(0, 0), (25, 25), ⟨(1, 0), (0, 0), (0, 0), false⟩, 0⟩
      = ⟨(0, 0), (25, 25), ⟨(1, 0), (0, 0), (0, 0), false⟩, 1/4⟩ := by
    show update_movement (Jd.check_collide [] (1/240)
      ⟨(0, 0), (25, 25), ⟨(1, 0), (0, 0), (0, 0), false⟩, 0⟩) = _
    rw [cj1]
    norm_num [update_movement, apply_out, kill_box,
      PhysState.mk.injEq, Movement.mk.injEq, Prod.ext_iff]
  have ej2 : Jd.frame [] (1/240) ⟨(0, 0), (25, 25), ⟨(1, 0), (0, 0), (0, 0), false⟩, 1/4⟩
      = ⟨(0, 0), (25, 25), ⟨(1, 0), (0, 0), (0, 0), false⟩, 1/2⟩ := by
    show update_movement (Jd.check_collide [] (1/240)
      ⟨(0, 0), (25, 25), ⟨(1, 0), (0, 0), (0, 0), false⟩, 1/4⟩) = _
    rw [cj2]
    norm_num [update_movement, apply_out, kill_box,
      PhysState.mk.injEq, Movement.mk.injEq, Prod.ext_iff]
  have ej3 : Jd.frame [] (1/240) ⟨(0, 0), (25, 25), ⟨(1, 0), (0, 0), (0, 0), false⟩, 1/2⟩
      = ⟨(0, 0), (25, 25), ⟨(1, 0), (0, 0), (0, 0), false⟩, 3/4⟩ := by
    show update_movement (Jd.check_collide [] (1/240)
      ⟨(0, 0), (25, 25), ⟨(1, 0), (0, 0), (0, 0), false⟩, 1/2⟩) = _
    rw [cj3]
    norm_num [update_movement, apply_out, kill_box,
      PhysState.mk.injEq, Movement.mk.injEq, Prod.ext_iff]
  refine ⟨(c5_fixed_timestep_four_vs_one []
      ⟨(0, 0), (25, 25), ⟨(1, 0), (0, 0), (0, 0), false⟩, 0⟩).1 ?_ ?_,
    (c5_fixed_timestep_four_vs_one []
      ⟨(0, 0), (25, 25), ⟨(1, 0), (0, 0), (0, 0), false⟩, 0⟩).2 ?_ ?_⟩
  · intro i
    fin_cases i
    · norm_num [Prod.ext_iff]
    · show (Baby.frame [] (1/240)
          ⟨(0, 0), (25, 25), ⟨(1, 0), (0, 0), (0, 0), false⟩, 0⟩).mov.ctl
        + (Baby.frame [] (1/240)
          ⟨(0, 0), (25, 25), ⟨(1, 0), (0, 0), (0, 0), false⟩, 0⟩).mov.force ≠ 0
      rw [eb1]
      norm_num [Prod.ext_iff]
    · show (Baby.frame [] (1/240) (Baby.frame [] (1/240)
          ⟨(0, 0), (25, 25), ⟨(1, 0), (0, 0), (0, 0), false⟩, 0⟩)).mov.ctl
        + (Baby.frame [] (1/240) (Baby.frame [] (1/240)
          ⟨(0, 0), (25, 25), ⟨(1, 0), (0, 0), (0, 0), false⟩, 0⟩)).mov.force ≠ 0
      rw [eb1, eb2]
      norm_num [Prod.ext_iff]
    · show (Baby.frame [] (1/240) (Baby.frame [] (1/240) (Baby.frame [] (1/240)
          ⟨(0, 0), (25, 25), ⟨(1, 0), (0, 0), (0, 0), false⟩, 0⟩))).mov.ctl
        + (Baby.frame [] (1/240) (Baby.frame [] (1/240) (Baby.frame [] (1/240)
          ⟨(0, 0), (25, 25), ⟨(1, 0), (0, 0), (0, 0), false⟩, 0⟩))).mov.force ≠ 0
      rw [eb1, eb2, eb3]
      norm_num [Prod.ext_iff]
  · intro i
    fin_cases i
    · show -1000 ≤ ((Baby.check_collide [] (1/240)
          ⟨(0, 0), (25, 25), ⟨(1, 0), (0, 0), (0, 0), false⟩, 0⟩).pos
        + (Baby.check_collide [] (1/240)
          ⟨(0, 0), (25, 25), ⟨(1, 0), (0, 0), (0, 0), false⟩, 0⟩).mov.out).2
      rw [cb1]
      norm_num
    · show -1000 ≤ ((Baby.check_collide [] (1/240) (Baby.frame [] (1/240)
          ⟨(0, 0), (25, 25), ⟨(1, 0), (0, 0), (0, 0), false⟩, 0⟩)).pos
        + (Baby.check_collide [] (1/240) (Baby.frame [] (1/240)
          ⟨(0, 0), (25, 25), ⟨(1, 0), (0, 0), (0, 0), false⟩, 0⟩)).mov.out).2
      rw [eb1, cb2]
      norm_num
    · show -1000 ≤ ((Baby.check_collide [] (1/240) (Baby.frame [] (1/240)
          (Baby.frame [] (1/240)
            ⟨(0, 0), (25, 25), ⟨(1, 0), (0, 0), (0, 0), false⟩, 0⟩))).pos
        + (Baby.check_collide [] (1/240) (Baby.frame [] (1/240)
          (Baby.frame [] (1/240)
            ⟨(0, 0), (25, 25), ⟨(1, 0), (0, 0), (0, 0), false⟩, 0⟩))).mov.out).2
      rw [eb1, eb2, cb3]
      norm_num
  · intro i
    fin_cases i
    · norm_num [Prod.ext_iff]
    · show (Jd.frame [] (1/240)
          ⟨(0, 0), (25, 25), ⟨(1, 0), (0, 0), (0, 0), false⟩, 0⟩).mov.ctl
        + (Jd.frame [] (1/240)
          ⟨(0, 0), (25, 25), ⟨(1, 0), (0, 0), (0, 0), false⟩, 0⟩).mov.force ≠ 0
      rw [ej1]
      norm_num [Prod.ext_iff]
    · show (Jd.frame [] (1/240) (Jd.frame [] (1/240)
          ⟨(0, 0), (25, 25), ⟨(1, 0), (0, 0), (0, 0), false⟩, 0⟩)).mov.ctl
        + (Jd.frame [] (1/240) (Jd.frame [] (1/240)
          ⟨(0, 0), (25, 25), ⟨(1, 0), (0, 0), (0, 0), false⟩, 0⟩)).mov.force ≠ 0
      rw [ej1, ej2]
      norm_num [Prod.ext_iff]
    · show (Jd.frame [] (1/240) (Jd.frame [] (1/240) (Jd.frame [] (1/240)
          ⟨(0, 0), (25, 25), ⟨(1, 0), (0, 0), (0, 0), false⟩, 0⟩))).mov.ctl
        + (Jd.frame [] (1/240) (Jd.frame [] (1/240) (Jd.frame [] (1/240)
          ⟨(0, 0), (25, 25), ⟨(1, 0), (0, 0), (0, 0), false⟩, 0⟩))).mov.force ≠ 0
      rw [ej1, ej2, ej3]
      norm_num [Prod.ext_iff]
  · intro i
    fin_cases i
    · show -1000 ≤ ((Jd.check_collide [] (1/240)
          ⟨(0, 0), (25, 25), ⟨(1, 0), (0, 0), (0, 0), false⟩, 0⟩).pos
        + (Jd.check_collide [] (1/240)
          ⟨(0, 0), (25, 25), ⟨(1, 0), (0, 0), (0, 0), false⟩, 0⟩).mov.out).2
      rw [cj1]
      norm_num
    · show -1000 ≤ ((Jd.check_collide [] (1/240) (Jd.frame [] (1/240)
          ⟨(0, 0), (25, 25), ⟨(1, 0), (0, 0), (0, 0), false⟩, 0⟩)).pos
        + (Jd.check_collide [] (1/240) (Jd.frame [] (1/240)
          ⟨(0, 0), (25, 25), ⟨(1, 0), (0, 0), (0, 0), false⟩, 0⟩)).mov.out).2
      rw [ej1, cj2]
      norm_num
    · show -1000 ≤ ((Jd.check_collide [] (1/240) (Jd.frame [] (1/240)
          (Jd.frame [] (1/240)
            ⟨(0, 0), (25, 25), ⟨(1, 0), (0, 0), (0, 0), false⟩, 0⟩))).pos
        + (Jd.check_collide [] (1/240) (Jd.frame [] (1/240)
          (Jd.frame [] (1/240)
            ⟨(0, 0), (25, 25), ⟨(1, 0), (0, 0), (0, 0), false⟩, 0⟩))).mov.out).2
      rw [ej1, ej2, cj3]
      norm_num

/-- Counterexample to C5 as stated: with control `(0, 9.8/60)` (exactly one
gravity impulse), no initial force, and leftover budget `8/5`, the first
1/240-call runs one tick after which `ctl + force = 0`, so the remaining
three 1/240-calls hit the Idle early-return and drop their budget: the
four-call path ends at rem `17/20`, position `(0,0)`, force `(0,-49/300)`,
while the single 1/60-call runs two ticks and ends at rem `3/5`, position
`(0,-49/300)`, force `(0,-49/150)` — cumulative displacement, final force,
and leftover budget all differ. -/
theorem c5_counterexample :
    ((Baby.frame [] (1/240))^[4]
        ⟨(0, 0), (25, 25), ⟨(0, 49/300), (0, 0), (0, 0), false⟩, 8/5⟩).rem = 17/20 ∧
      (Baby.frame [] (1/60)
        ⟨(0, 0), (25, 25), ⟨(0, 49/300), (0, 0), (0, 0), false⟩, 8/5⟩).rem = 3/5 ∧
      ((Baby.frame [] (1/240))^[4]
        ⟨(0, 0), (25, 25), ⟨(0, 49/300), (0, 0), (0, 0), false⟩, 8/5⟩).pos = (0, 0) ∧
      (Baby.frame [] (1/60)
        ⟨(0, 0), (25, 25), ⟨(0, 49/300), (0, 0), (0, 0), false⟩, 8/5⟩).pos
        = (0, -(49/300)) ∧
      ((Baby.frame [] (1/240))^[4]
        ⟨(0, 0), (25, 25), ⟨(0, 49/300), (0, 0), (0, 0), false⟩, 8/5⟩).mov.force
        = (0, -(49/300)) ∧
      (Baby.frame [] (1/60)
        ⟨(0, 0), (25, 25), ⟨(0, 49/300), (0, 0), (0, 0), false⟩, 8/5⟩).mov.force
        = (0, -(49/150)) ∧
      ((Baby.frame [] (1/240))^[4]
          ⟨(0, 0), (25, 25), ⟨(0, 49/300), (0, 0), (0, 0), false⟩, 8/5⟩).rem
        ≠ (Baby.frame [] (1/60)
          ⟨(0, 0), (25, 25), ⟨(0, 49/300), (0, 0), (0, 0), false⟩, 8/5⟩).rem ∧
      ((Baby.frame [] (1/240))^[4]
          ⟨(0, 0), (25, 25), ⟨(0, 49/300), (0, 0), (0, 0), false⟩, 8/5⟩).pos
        ≠ (Baby.frame [] (1/60)
          ⟨(0, 0), (25, 25), ⟨(0, 49/300), (0, 0), (0, 0), false⟩, 8/5⟩).pos ∧
      ((Baby.frame [] (1/240))^[4]
          ⟨(0, 0), (25, 25), ⟨(0, 49/300), (0, 0), (0, 0), false⟩, 8/5⟩).mov.force
        ≠ (Baby.frame [] (1/60)
          ⟨(0, 0), (25, 25), ⟨(0, 49/300), (0, 0), (0, 0), false⟩, 8/5⟩).mov.force := by
  have t1 : tick_count (37/20 : ℚ) = 1 := by
    unfold tick_count
    rw [show ⌈(37/20 : ℚ) - 1⌉ = 1 by rw [Int.ceil_eq_iff]; constructor <;> norm_num]
    rfl
  have t2 : tick_count (13/5 : ℚ) = 2 := by
    unfold tick_count
    rw [show ⌈(13/5 : ℚ) - 1⌉ = 2 by rw [Int.ceil_eq_iff]; constructor <;> norm_num]
    rfl
  have g1 : Baby.frame [] (1/240)
      ⟨(0, 0), (25, 25), ⟨(0, 49/300), (0, 0), (0, 0), false⟩, 8/5⟩
      = ⟨(0, 0), (25, 25), ⟨(0, 49/300), (0, -(49/300)), (0, 0), false⟩, 17/20⟩ := by
    norm_num [Baby.frame, update_movement, apply_out, kill_box, Baby.check_collide, t1,
      Baby.physics_tick, collide_passes, collide_pass, gather_collisions,
      Aabb.fromCenter, Aabb.center, List.filterMap, List.mergeSort,
      Function.iterate_succ_apply', Function.iterate_zero_apply,
      PhysState.mk.injEq, Movement.mk.injEq, Prod.ext_iff]
  have g2 : Baby.frame [] (1/240)
      ⟨(0, 0), (25, 25), ⟨(0, 49/300), (0, -(49/300)), (0, 0), false⟩, 17/20⟩
      = ⟨(0, 0), (25, 25), ⟨(0, 49/300), (0, -(49/300)), (0, 0), false⟩, 17/20⟩ := by
    norm_num [Baby.frame, update_movement, apply_out, kill_box, Baby.check_collide,
      PhysState.mk.injEq, Movement.mk.injEq, Prod.ext_iff]
  have gs : Baby.frame [] (1/60)
      ⟨(0, 0), (25, 25), ⟨(0, 49/300), (0, 0), (0, 0), false⟩, 8/5⟩
      = ⟨(0, -(49/300)), (25, 25),
          ⟨(0, 49/300), (0, -(49/150)), (0, -(49/300)), false⟩, 3/5⟩ := by
    norm_num [Baby.frame, update_movement, apply_out, kill_box, Baby.check_collide, t2,
      Baby.physics_tick, collide_passes, collide_pass, gather_collisions,
      Aabb.fromCenter, Aabb.center, List.filterMap, List.mergeSort,
      Function.iterate_succ_apply', Function.iterate_zero_apply,
      PhysState.mk.injEq, Movement.mk.injEq, Prod.ext_iff]
  have h4 : (Baby.frame [] (1/240))^[4]
      ⟨(0, 0), (25, 25), ⟨(0, 49/300), (0, 0), (0, 0), false⟩, 8/5⟩
      = ⟨(0, 0), (25, 25), ⟨(0, 49/300), (0, -(49/300)), (0, 0), false⟩, 17/20⟩ := by
    show Baby.frame [] (1/240) (Baby.frame [] (1/240) (Baby.frame [] (1/240)
        (Baby.frame [] (1/240)
          ⟨(0, 0), (25, 25), ⟨(0, 49/300), (0, 0), (0, 0), false⟩, 8/5⟩))) = _
    rw [g1, g2, g2, g2]
  rw [h4, gs]
  norm_num [Prod.ext_iff]
